import Mathlib

/-!
# GoTools: curve creators and the curve-point intersector

A shallow embedding of

* `intersections/include/GoTools/intersections/CvPtIntersector.h`
  (class `CvPtIntersector`), and
* `gotools-core/src/creators/CurveCreators.C`
  (`multCurveWithFunction`, `blend`, `approxCurves`, `projectSpaceCurve`,
  `createCircle`, `offsetCurve`).

Conventions.  C++ `int` values are `Int`.  C++ `double` values are exact
rationals (`ℚ`): rounding is not modelled, and the divisions whose divisor
can be zero are modelled explicitly: `tpar /= (order - 1)`, its not-a-number
outcome being `none`, and `len/approxtol`, which is only converted to `int`.  `std::vector<double>` is `List ℚ`.  Exceptions raised by
`ALWAYS_ERROR_IF` / `ASSERT` are the `error` side of `Except`.  Classes of the
library whose code is not part of the embedded files (spline evaluation,
interpolation, knot insertion, Hermite approximation) are passed in as records
of functions.
-/

set_option autoImplicit false

namespace GoTools

/-! ## Part 1: `CvPtIntersector` -/

/-- The geometric role an opaque `ParamGeomInt` plays. -/
inductive GeomKind where
  | curve
  | point
  | surface
  deriving DecidableEq, Repr

/-- Modelled from the spec: `ParamGeomInt` (spec sections 2 and 3), a wrapper around one
parametric object, a curve, a surface or a point, with cached domain bounds.
The class itself is only used, not defined, by `CvPtIntersector.h`.
`geom` identifies the borrowed geometry object. -/
structure ParamGeomInt where
  kind : GeomKind
  geom : Nat
  domain : List (ℚ × ℚ)
  deriving DecidableEq, Repr

/-- Modelled from the spec: `GeoTol` (spec section 3), the tolerance bundle; `epsge` is
the geometric tolerance. -/
structure GeoTol where
  epsge : ℚ
  deriving DecidableEq, Repr

/-- An intersection result of a curve-point problem: an isolated point at a
curve parameter, or a coincidence interval (spec section 3, "Intersection result"). -/
inductive IntResult where
  | pointAt (t : ℚ)
  | coincidence (lo hi : ℚ)
  deriving DecidableEq, Repr

/-- The state of a `CvPtIntersector` object: the members inherited from
`Intersector2Obj` (the two operands, the tolerance, the non-owning reference to
the parent, the eliminated parameter and its value, the result list) and the
two private members `cv_idx_`, `pt_idx_` of `CvPtIntersector.h`. -/
structure CvPtIntersector where
  obj_int : ParamGeomInt × ParamGeomInt
  epsge : GeoTol
  prev : Option Nat
  eliminated_parameter : Int
  eliminated_value : ℚ
  int_results : List IntResult
  cv_idx : Int
  pt_idx : Int
  deriving DecidableEq, Repr

namespace CvPtIntersector

/-- `virtual int numParams() const { return 1; }` -/
def numParams (_self : CvPtIntersector) : Int := 1

/-- `virtual int repairIntersections() { return 0; }`: the returned value and
the state of the object after the call. -/
def repairIntersections (self : CvPtIntersector) : Int × CvPtIntersector := (0, self)

end CvPtIntersector

/-- The construction-time contract violation of spec section 7. -/
inductive ContractViolation where
  | operandRoles
  deriving DecidableEq, Repr

/-- Modelled from the spec: `CvPtIntersector::sortParameterDirections`, which the
header only declares.  Spec section 4.3: it "determines, from the two opaque
`ParamGeomInt` (caller must supply one curve-like and one point-like), which is
which; fails (signals a construction-time contract violation) if both or
neither match the expected role".  On success the result is the pair
`(cv_idx_, pt_idx_)`.  The integer the C++ member returns is not described by
the spec and is not modelled. -/
def sortParameterDirections (obj1 obj2 : ParamGeomInt) :
    Except ContractViolation (Int × Int) :=
  match obj1.kind, obj2.kind with
  | GeomKind.curve, GeomKind.point => Except.ok (0, 1)
  | GeomKind.point, GeomKind.curve => Except.ok (1, 0)
  | _, _ => Except.error ContractViolation.operandRoles

/-- Modelled from the spec: the constructor
`CvPtIntersector(obj1, obj2, epsge, prev, eliminated_parameter, eliminated_value)`,
declared in the header with defaults `prev = 0`, `eliminated_parameter = -1`,
`eliminated_value = 0`.  Spec section 4.2: the operand roles are "resolved once at
construction via `sortParameterDirections()`"; spec section 7: a contract violation
"fails fast at construction". -/
def CvPtIntersector.construct (obj1 obj2 : ParamGeomInt) (epsge : GeoTol)
    (prev : Option Nat) (eliminated_parameter : Int) (eliminated_value : ℚ) :
    Except ContractViolation CvPtIntersector :=
  match sortParameterDirections obj1 obj2 with
  | Except.error e => Except.error e
  | Except.ok (cv, pt) =>
    Except.ok
      { obj_int := (obj1, obj2)
        epsge := epsge
        prev := prev
        eliminated_parameter := eliminated_parameter
        eliminated_value := eliminated_value
        int_results := []
        cv_idx := cv
        pt_idx := pt }

/-! ### The recursive search behind `compute()` -/

/-- A point of the geometry layer (`Go::Point`): its coordinates. -/
abbrev Point := List ℚ

/-- Squared Euclidean distance between two points, coordinate by coordinate. -/
def Point.dist2 (p q : Point) : ℚ :=
  ((List.zipWith (fun a b => (a - b) * (a - b)) p q)).sum

/-- The classification `getSubdivisionParameter` returns (the header names the
type `SubdivisionClassification`; spec section 4.1: it indicates "whether subdivision
is even meaningful at this point, e.g., degenerate/no-solution-possible"). -/
inductive SubdivisionClassification where
  | canDivide
  | noSolutionPossible
  deriving DecidableEq, Repr

/-- Modelled from the spec: what one curve-point node consumes (spec sections 4.3 and 6).
The members `checkCoincidence`, `microCase`, `linearCase`, `doSubdivide` and
`getSubdivisionParameter` are only declared in `CvPtIntersector.h`, and
`compute()` belongs to the base class; the numerical queries they rest on are
the fields of this record.
* `curve`, `point`: the two operands, the curve by its evaluation `point(t)`;
* `eps`: the geometric tolerance;
* `microWidth`: the minimal width of a subdomain (micro-case threshold);
* `checkCoincidence lo hi`: the verdict of the coincidence test on `[lo, hi]`;
* `monotoneDistance lo hi`: the curve is provably monotone-distance on `[lo, hi]`;
* `newtonStep lo hi`: the parameter one Newton step of the linear model gives;
* `getSubdivisionParameter lo hi`: classification and split value. -/
structure CvPtNumerics where
  curve : ℚ → Point
  point : Point
  eps : ℚ
  microWidth : ℚ
  checkCoincidence : ℚ → ℚ → Bool
  monotoneDistance : ℚ → ℚ → Bool
  newtonStep : ℚ → ℚ → ℚ
  getSubdivisionParameter : ℚ → ℚ → SubdivisionClassification × ℚ

namespace CvPtNumerics

/-- The test `dist(curve(t), point) ≤ ε`, on squared distances. -/
def within (N : CvPtNumerics) (t : ℚ) : Bool :=
  decide (0 ≤ N.eps) && decide (Point.dist2 (N.curve t) N.point ≤ N.eps * N.eps)

/-- Modelled from the spec: `microCase` (spec section 4.3): "samples the subdomain
midpoint, checks `dist(curve(t), point) ≤ ε`", emits a point result or
discards. -/
def microCase (N : CvPtNumerics) (lo hi : ℚ) : List IntResult :=
  if N.within ((lo + hi) / 2) then [IntResult.pointAt ((lo + hi) / 2)] else []

/-- Modelled from the spec: `linearCase` (spec section 4.3): "valid when the curve is
provably monotone-distance over the subdomain; solves via one Newton step from
the analytic linear model, validates the result is within domain and
tolerance".  `none` is the failure that falls through to subdivision. -/
def linearCase (N : CvPtNumerics) (lo hi : ℚ) : Option (List IntResult) :=
  if N.monotoneDistance lo hi then
    if lo ≤ N.newtonStep lo hi ∧ N.newtonStep lo hi ≤ hi ∧ N.within (N.newtonStep lo hi) = true then
      some [IntResult.pointAt (N.newtonStep lo hi)]
    else none
  else none

/-- The parameter a result sits at (the lower end for a coincidence interval). -/
def resultParameter : IntResult → ℚ
  | IntResult.pointAt t => t
  | IntResult.coincidence lo _ => lo

/-- Modelled from the spec: `updateIntersections` (spec section 4.1): a child's result is
taken over unless the list already holds a result within ε of it. -/
def updateIntersections (N : CvPtNumerics) (have_ : List IntResult) (child : List IntResult) :
    List IntResult :=
  child.foldl
    (fun acc r =>
      if acc.any (fun r0 => decide (|resultParameter r0 - resultParameter r| ≤ N.eps)) then acc
      else acc ++ [r])
    have_

/-- Modelled from the spec: the state machine of spec section 4.1 on the subdomain
`[lo, hi]`, the transitions tried in the order coincidence, micro case, linear
case, subdivision.  The first argument is the recursion-depth budget of spec
section 5; a node that is out of budget, whose subdivision is classified as
not meaningful, or whose split value does not give strictly smaller
subdomains, "returns no further results for that branch". -/
def computeNode (N : CvPtNumerics) : Nat → ℚ → ℚ → List IntResult
  | 0, _, _ => []
  | depth + 1, lo, hi =>
    if N.checkCoincidence lo hi then [IntResult.coincidence lo hi]
    else if hi - lo < N.microWidth then N.microCase lo hi
    else
      match N.linearCase lo hi with
      | some found => found
      | none =>
        match N.getSubdivisionParameter lo hi with
        | (SubdivisionClassification.noSolutionPossible, _) => []
        | (SubdivisionClassification.canDivide, par) =>
          if lo < par ∧ par < hi then
            N.updateIntersections (N.updateIntersections [] (computeNode N depth lo par))
              (computeNode N depth par hi)
          else []

end CvPtNumerics

namespace CvPtIntersector

/-- The parameter domain of the curve operand, the one `cv_idx_` points at. -/
def curveDomain (self : CvPtIntersector) : ℚ × ℚ :=
  ((if self.cv_idx = 0 then self.obj_int.1 else self.obj_int.2).domain).headD (0, 0)

/-- Modelled from the spec: `compute()` (spec sections 2 and 6): "runs the full recursive
search from the current root state" over the curve's domain and leaves the
harvested results in the result list. -/
def compute (self : CvPtIntersector) (N : CvPtNumerics) (depth : Nat) : CvPtIntersector :=
  { self with
    int_results := N.computeNode depth self.curveDomain.1 self.curveDomain.2 }

end CvPtIntersector

/-! ## Part 2: `CurveCreators` -/

/-- What a call can end in other than a returned value: an exception thrown by
`ALWAYS_ERROR_IF` or `ASSERT` in the function `origin` (`raised`), an access
outside the range of a vector (`outOfRange`), a loop that never terminates
(`diverges`). -/
inductive Fault where
  | raised (origin : String) (message : String)
  | outOfRange
  | diverges
  deriving DecidableEq, Repr

/-- `BsplineBasis`: number of coefficients, order and knot vector. -/
structure BsplineBasis where
  num_coefs : Int
  order : Int
  knots : List ℚ
  deriving DecidableEq, Repr

/-- `SplineCurve` as `CurveCreators.C` uses it: `dimension()`, `rational()`,
`basis()`, the range `coefs_begin() .. coefs_end()` (`coefs`; for a rational
curve these are the "non-rational coefs" of line 577, `dim` values a control
point) and, for a rational curve, the homogeneous values it was built from
(`rcoefs`, `dim + 1` values a control point, line 529). -/
structure SplineCurve where
  dim : Int
  rational : Bool
  basis : BsplineBasis
  coefs : List ℚ
  rcoefs : List ℚ
  deriving DecidableEq, Repr

namespace SplineCurve

/-- `dimension()` -/
def dimension (c : SplineCurve) : Int := c.dim

/-- `order()` -/
def order (c : SplineCurve) : Int := c.basis.order

/-- `numCoefs()` -/
def numCoefs (c : SplineCurve) : Int := c.basis.num_coefs

/-- `startparam()`: the knot `knots[order - 1]`, the value line 444 reads for a
spline curve where line 449 calls `startparam()` for any other curve. -/
def startparam (c : SplineCurve) : ℚ := c.basis.knots.getD (c.basis.order - 1).toNat 0

/-- `endparam()`: the knot `knots[numCoefs]`, the last value the loop of lines
445-447 can reach, where line 450 calls `endparam()` for any other curve. -/
def endparam (c : SplineCurve) : ℚ := c.basis.knots.getD c.basis.num_coefs.toNat 0

/-- The constructor `SplineCurve(num_coefs, order, knots_begin, coefs_begin, dim)`
of a non-rational curve: it reads `num_coefs + order` knots and
`num_coefs * dim` coefficients from the two iterators. -/
def create (num_coefs order : Int) (knots : List ℚ) (coefs : List ℚ) (dim : Int) :
    SplineCurve :=
  { dim := dim
    rational := false
    basis :=
      { num_coefs := num_coefs
        order := order
        knots := knots.take (num_coefs + order).toNat }
    coefs := coefs.take (num_coefs * dim).toNat
    rcoefs := [] }

end SplineCurve

/-- The parts of the spline library `multCurveWithFunction` and `blend` call and
`CurveCreators.C` does not define.
* `point c t`: `c.point(pt, t)`, the curve evaluated at the `double` `t`
  (`none` is the not-a-number parameter);
* `interpolate basis par points`: the coefficients `SplineInterpolator`
  returns in `new_coefs` after `setBasis(basis)` and
  `interpolate(par, points, dummy_index, dummy_tangents, new_coefs)`;
* `raiseOrder c`: `c` after `c.raiseOrder()`;
* `insertKnot c new_knots`: `c` after `c.insertKnot(new_knots)`. -/
structure SplineServices where
  point : SplineCurve → Option ℚ → Point
  interpolate : BsplineBasis → List (Option ℚ) → List ℚ → List ℚ
  raiseOrder : SplineCurve → SplineCurve
  insertKnot : SplineCurve → List ℚ → SplineCurve

/-- `std::set_union` on two sorted ranges, appended to an empty vector. -/
def set_union : List ℚ → List ℚ → List ℚ
  | [], ys => ys
  | x :: xs, [] => x :: xs
  | x :: xs, y :: ys =>
    if y < x then y :: set_union (x :: xs) ys
    else if x < y then x :: set_union xs (y :: ys)
    else x :: set_union xs ys
termination_by xs ys => xs.length + ys.length

/-- `std::set_difference` on two sorted ranges, appended to an empty vector. -/
def set_difference : List ℚ → List ℚ → List ℚ
  | [], _ => []
  | x :: xs, [] => x :: xs
  | x :: xs, y :: ys =>
    if x < y then x :: set_difference xs (y :: ys)
    else if y < x then set_difference (x :: xs) ys
    else set_difference xs ys
termination_by xs ys => xs.length + ys.length

/-- Lines 72-78 (and 79-85): every knot is copied, and `extra` more copies of it
follow when it is smaller than the next knot or is the last knot ("We must
insert multiple knots for cont. reasons"). -/
def insertMultipleKnots (extra : Nat) : List ℚ → List ℚ
  | [] => []
  | [k] => k :: List.replicate extra k
  | k :: k1 :: rest =>
    if k < k1 then k :: (List.replicate extra k ++ insertMultipleKnots extra (k1 :: rest))
    else k :: insertMultipleKnots extra (k1 :: rest)

/-- Lines 96-99: `tpar = 0.0; for (j = 1; j < order; ++j) tpar += knots[i + j];
tpar /= (order - 1);`.  With `order - 1 = 0` the quotient is `0.0 / 0`, not a
number: `none`. -/
def coefParameter (knots : List ℚ) (order : Int) (i : Nat) : Option ℚ :=
  if order - 1 = 0 then none
  else
    some (((List.range (order - 1).toNat).foldl
      (fun tpar j => tpar + knots.getD (i + (j + 1)) 0) 0) / ((order - 1 : Int) : ℚ))

/-- Lines 103-107: the `f.dimension()` values `alpha_pt[0] * f_pt[j]` pushed
for the parameter `tpar`. -/
def productValues (S : SplineServices) (alpha f : SplineCurve) (tpar : Option ℚ) : List ℚ :=
  (List.range f.dimension.toNat).map
    (fun j => (S.point alpha tpar).getD 0 0 * (S.point f tpar).getD j 0)

/-- Lines 68-88: the knot vector of the product. -/
def productKnots (alpha f : SplineCurve) : List ℚ :=
  set_union (insertMultipleKnots (f.order - 1).toNat alpha.basis.knots)
    (insertMultipleKnots (alpha.order - 1).toNat f.basis.knots)

/-- Lines 95-101: `coefs_par`, one parameter for each `i` with `0 ≤ i < num_coefs`. -/
def productParameters (alpha f : SplineCurve) : List (Option ℚ) :=
  (List.range (((productKnots alpha f).length : Int) - (alpha.order + f.order - 1)).toNat).map
    (fun i => coefParameter (productKnots alpha f) (alpha.order + f.order - 1) i)

/-- Lines 95-108: `coefs`, the product values at the parameters of `coefs_par`
one after the other. -/
def productPoints (S : SplineServices) (alpha f : SplineCurve) : List ℚ :=
  ((productParameters alpha f).map (fun tpar => productValues S alpha f tpar)).flatten

/-- The `i`-th Greville parameter of the spline space of order `order` on
`knots`: the mean of the `order - 1` knots `knots[i+1], ..., knots[i+order-1]`.
An order below 2 has none. -/
def grevilleParameter (knots : List ℚ) (order : Int) (i : Nat) : Option ℚ :=
  if order ≤ 1 then none
  else some (((knots.drop (i + 1)).take (order - 1).toNat).sum / ((order - 1 : Int) : ℚ))

/-- `CurveCreators::multCurveWithFunction(alpha, f)`. -/
def multCurveWithFunction (S : SplineServices) (alpha f : SplineCurve) :
    Except Fault SplineCurve :=
  if alpha.dimension ≠ 1 then
    Except.error (Fault.raised "multCurveWithFunction"
      "Dimension of function is different from 1.")
  else if f.startparam ≠ alpha.startparam ∨ f.endparam ≠ alpha.endparam then
    Except.error (Fault.raised "multCurveWithFunction"
      "Parameter intervals of the curves do not coincide.")
  else
    let knots := productKnots alpha f
    let order := alpha.order + f.order - 1
    let num_coefs := (knots.length : Int) - order
    let basis : BsplineBasis :=
      { num_coefs := num_coefs, order := order, knots := knots.take (num_coefs + order).toNat }
    let new_coefs := S.interpolate basis (productParameters alpha f) (productPoints S alpha f)
    Except.ok (SplineCurve.create num_coefs order basis.knots new_coefs f.dimension)

/-- Lines 161-163: `abs(order_1 - order_2)` rounds, each raising the order of
the curve that had the smaller order when the loop was entered. -/
def raiseToCommonOrder (S : SplineServices) (order_1 order_2 : Int) :
    Nat → SplineCurve × SplineCurve → SplineCurve × SplineCurve
  | 0, curves => curves
  | rounds + 1, (first_curve, second_curve) =>
    raiseToCommonOrder S order_1 order_2 rounds
      (if order_1 < order_2 then (S.raiseOrder first_curve, second_curve)
       else (first_curve, S.raiseOrder second_curve))

/-- Lines 180-181: `first[i] += second[i]` for `0 ≤ i < count`. -/
def addCoefs (count : Nat) (first second : List ℚ) : Except Fault (List ℚ) :=
  if first.length < count ∨ second.length < count then Except.error Fault.outOfRange
  else
    Except.ok
      ((List.zipWith (fun a b => a + b) (first.take count) (second.take count))
        ++ first.drop count)

/-- `CurveCreators::blend(alpha_1, f_1, alpha_2, f_2)`. -/
def blend (S : SplineServices) (alpha_1 f_1 alpha_2 f_2 : SplineCurve) :
    Except Fault SplineCurve :=
  if alpha_1.dimension ≠ 1 ∨ alpha_2.dimension ≠ 1 then
    Except.error (Fault.raised "blend"
      "Dimension of (at least one) blend function differs from 1.")
  else if f_1.dimension ≠ f_2.dimension then
    Except.error (Fault.raised "blend"
      "Dimension mismatch between the spline curves to be blended.")
  else if alpha_2.startparam ≠ alpha_1.startparam ∨ alpha_2.endparam ≠ alpha_1.endparam
      ∨ f_1.startparam ≠ alpha_1.startparam ∨ f_1.endparam ≠ alpha_1.endparam
      ∨ f_2.startparam ≠ alpha_1.startparam ∨ f_2.endparam ≠ alpha_1.endparam then
    Except.error (Fault.raised "blend"
      "Parameter intervals of the curves do not coincide.")
  else
    match multCurveWithFunction S alpha_1 f_1 with
    | Except.error e => Except.error e
    | Except.ok first_product =>
      match multCurveWithFunction S alpha_2 f_2 with
      | Except.error e => Except.error e
      | Except.ok second_product =>
        let levelled := raiseToCommonOrder S first_product.order second_product.order
          (first_product.order - second_product.order).natAbs (first_product, second_product)
        let all_knots := set_union levelled.1.basis.knots levelled.2.basis.knots
        let first_curve := S.insertKnot levelled.1 (set_difference all_knots levelled.1.basis.knots)
        let second_curve := S.insertKnot levelled.2 (set_difference all_knots levelled.2.basis.knots)
        match addCoefs (first_curve.numCoefs * first_curve.dimension).toNat
            first_curve.coefs second_curve.coefs with
        | Except.error e => Except.error e
        | Except.ok sum => Except.ok { first_curve with coefs := sum }

/-! ### `offsetCurve` -/

/-- Lines 621-622: `coefs_iter[ki] += offset_val[ki]` for `0 ≤ ki < dim`, on the
`dim` values of one control point. -/
def addOffset (offset_val : Point) (block : List ℚ) : List ℚ :=
  List.zipWith (fun coef offset => coef + offset) block offset_val

/-- Lines 619-625: the loop `while (coefs_iter < coefs_end)`, on the values from
`coefs_iter` on.  Each round adds `offset_val` to `dim` values and moves
`coefs_iter` on by `dim`; a round that would write past `coefs_end` or read
past the end of `offset_val` is `outOfRange`.  The first argument bounds the number of rounds; running out of
rounds is `diverges`. -/
def offsetLoop (dim : Nat) (offset_val : Point) : Nat → List ℚ → Except Fault (List ℚ)
  | _, [] => Except.ok []
  | 0, _ :: _ => Except.error Fault.diverges
  | rounds + 1, c :: cs =>
    if (c :: cs).length < dim ∨ offset_val.length < dim then Except.error Fault.outOfRange
    else
      match offsetLoop dim offset_val rounds ((c :: cs).drop dim) with
      | Except.error e => Except.error e
      | Except.ok rest => Except.ok (addOffset offset_val ((c :: cs).take dim) ++ rest)

/-- `CurveCreators::offsetCurve(base_cv, offset_val)`.  `checked` says whether
`ASSERT` is compiled in.  The result is the pair of the object behind
`base_cv` after the call and the curve returned.  A loop that has not finished
after as many rounds as there are coefficients makes no progress. -/
def offsetCurve (checked : Bool) (base_cv : SplineCurve) (offset_val : Point) :
    Except Fault (SplineCurve × SplineCurve) :=
  let offset_cv := base_cv
  if checked = true ∧ offset_cv.dimension ≠ (offset_val.length : Int) then
    Except.error (Fault.raised "offsetCurve" "dim == offset_val.dimension()")
  else
    match offsetLoop offset_cv.dimension.toNat offset_val (offset_cv.coefs.length + 1)
        offset_cv.coefs with
    | Except.error e => Except.error e
    | Except.ok moved => Except.ok (base_cv, { offset_cv with coefs := moved })

/-! ### `projectSpaceCurve` -/

/-- `ParamCurve`: a `SplineCurve` (`instanceType() == Class_SplineCurve`) or a
curve of another class, of which `dimension()`, `startparam()` and
`endparam()` are used. -/
inductive ParamCurve where
  | spline (c : SplineCurve)
  | other (geom : Nat) (dim : Int) (startparam endparam : ℚ)
  deriving DecidableEq, Repr

namespace ParamCurve

/-- `dimension()` -/
def dimension : ParamCurve → Int
  | spline c => c.dimension
  | other _ dim _ _ => dim

end ParamCurve

/-- `ParamSurface`, used only through the surface library: a handle. -/
structure ParamSurface where
  geom : Nat
  deriving DecidableEq, Repr

/-- The evaluator `ProjectCurve(space_cv, surf, start_par_pt, end_par_pt, epsge,
domain_of_interest)` of lines 403-407, by the arguments it was built from
(a null `shared_ptr` or pointer is `none`). -/
structure ProjectCurve where
  space_cv : ParamCurve
  surf : ParamSurface
  start_par_pt : Option Point
  end_par_pt : Option Point
  epsge : ℚ
  domain_of_interest : Option (ℚ × ℚ × ℚ × ℚ)
  deriving DecidableEq, Repr

/-- What `projectSpaceCurve` reports besides its return value: the file
`project.g2` written at lines 425-429 and the `MESSAGE` of lines 431-432. -/
inductive Diagnostic where
  | fileWritten (name : String)
  | message (text : String) (max_dist epsge : ℚ)
  deriving DecidableEq, Repr

/-- The parts of the library `projectSpaceCurve` calls and `CurveCreators.C`
does not define.
* `endDistances proj_crv`: the pair `(dist1, dist2)` of lines 411-419, the
  distances between the end points of the space curve and the surface points
  of the projection;
* `hermiteAppC proj_crv initpars epsge kink_tol`: the curve `getCurve()` gives
  after `refineApproximation()`, `none` being the null pointer. -/
structure ProjectServices where
  endDistances : ProjectCurve → ℚ × ℚ
  hermiteAppC : ProjectCurve → List ℚ → ℚ → ℚ → Option SplineCurve

/-- Lines 445-447: `for (kj = order; kj <= nb_coef; ++kj) if (knots[kj] >
initpars[initpars.size()-1]) initpars.push_back(knots[kj]);`, on the knots from
`knots[order]` on. -/
def pushIncreasing (initpars : List ℚ) (knots : List ℚ) : List ℚ :=
  knots.foldl
    (fun pars knot => if knot > pars.getLastD 0 then pars ++ [knot] else pars) initpars

/-- Lines 437-451: the initial parameters of the approximation. -/
def initialParameters : ParamCurve → List ℚ
  | ParamCurve.spline c =>
    pushIncreasing [c.basis.knots.getD (c.order - 1).toNat 0]
      ((c.basis.knots.drop c.order.toNat).take (c.numCoefs - c.order + 1).toNat)
  | ParamCurve.other _ _ startparam endparam => [startparam, endparam]

/-- The outcome of `projectSpaceCurve`: the returned pointer (`none` is `NULL`)
or the fault, and the diagnostics emitted on the way. -/
structure ProjectOutcome where
  result : Except Fault (Option SplineCurve)
  diagnostics : List Diagnostic

/-- `CurveCreators::projectSpaceCurve(space_cv, surf, start_par_pt, end_par_pt,
epsge, domain_of_interest)`, the branch of lines 461-462 (any compiler but
Visual C++ before version 7).  `checked` says whether `ASSERT` is compiled
in.  `clone()` copies a curve: the copy is the same value. -/
def projectSpaceCurve (P : ProjectServices) (checked : Bool) (space_cv : ParamCurve)
    (surf : ParamSurface) (start_par_pt end_par_pt : Option Point) (epsge : ℚ)
    (domain_of_interest : Option (ℚ × ℚ × ℚ × ℚ)) : ProjectOutcome :=
  if checked = true ∧ space_cv.dimension ≠ 3 then
    { result := Except.error (Fault.raised "projectSpaceCurve" "space_cv->dimension() == 3")
      diagnostics := [] }
  else
    let proj_crv : ProjectCurve :=
      { space_cv := space_cv, surf := surf, start_par_pt := start_par_pt,
        end_par_pt := end_par_pt, epsge := epsge, domain_of_interest := domain_of_interest }
    let dist1 := (P.endDistances proj_crv).1
    let dist2 := (P.endDistances proj_crv).2
    let reported : List Diagnostic :=
      if max dist1 dist2 > epsge then
        [Diagnostic.fileWritten "project.g2",
         Diagnostic.message "Inconsistent input to curve approximation" (max dist1 dist2) epsge]
      else []
    let kink_tol : ℚ := 1 / 100
    let projection_cv := P.hermiteAppC proj_crv (initialParameters space_cv) epsge kink_tol
    { result := Except.ok projection_cv
      diagnostics := reported }

/-! ### `createCircle` -/

/-- The parts of the library `createCircle` calls and `CurveCreators.C` does not
define.
* `sqrt x`: `sqrt(x)` of `<cmath>`;
* `normalize p`: the point `p` after `p.normalize()`;
* `cross p q`: the point `p % q`;
* `nonRationalCoefs dim rcoefs`: the non-rational coefficients a rational
  `SplineCurve` of dimension `dim` keeps beside its homogeneous values
  `rcoefs` (the "non-rational coefs" of line 577). -/
structure CircleServices where
  sqrt : ℚ → ℚ
  normalize : Point → Point
  cross : Point → Point → Point
  nonRationalCoefs : Int → List ℚ → List ℚ

/-- The constructor `SplineCurve(num_coefs, order, knots_begin, coefs_begin, dim,
true)` of a rational curve: it reads `num_coefs + order` knots and
`num_coefs * (dim + 1)` homogeneous values from the two iterators. -/
def SplineCurve.createRational (nonRationalCoefs : Int → List ℚ → List ℚ)
    (num_coefs order : Int) (knots : List ℚ) (coefs : List ℚ) (dim : Int) : SplineCurve :=
  { dim := dim
    rational := true
    basis :=
      { num_coefs := num_coefs
        order := order
        knots := knots.take (num_coefs + order).toNat }
    coefs := nonRationalCoefs dim (coefs.take (num_coefs * (dim + 1)).toNat)
    rcoefs := coefs.take (num_coefs * (dim + 1)).toNat }

/-- Lines 534-542: the body of the loop `for (ki = 0; ki < 3; ++ki)`, the nine
assignments to `circle_coefs` for one `ki`. -/
def circleCoordinates (weight : ℚ) (center axis cross : Point) (circle_coefs : List ℚ)
    (ki : Nat) : List ℚ :=
  (((((((((circle_coefs.set ki (center.getD ki 0 + axis.getD ki 0)).set (ki + 4)
    (weight * (center.getD ki 0 + axis.getD ki 0 + cross.getD ki 0))).set (ki + 8)
    (center.getD ki 0 + cross.getD ki 0)).set (ki + 12)
    (weight * (center.getD ki 0 - axis.getD ki 0 + cross.getD ki 0))).set (ki + 16)
    (center.getD ki 0 - axis.getD ki 0)).set (ki + 20)
    (weight * (center.getD ki 0 - axis.getD ki 0 - cross.getD ki 0))).set (ki + 24)
    (center.getD ki 0 - cross.getD ki 0)).set (ki + 28)
    (weight * (center.getD ki 0 + axis.getD ki 0 - cross.getD ki 0))).set (ki + 32)
    (center.getD ki 0 + axis.getD ki 0))

/-- Line 545: the body of the loop `for (ki = 0; ki < 9; ++ki)`,
`circle_coefs[ki*4+3] = (ki % 2 == 0) ? 1.0 : weight`. -/
def circleWeight (weight : ℚ) (circle_coefs : List ℚ) (ki : Nat) : List ℚ :=
  circle_coefs.set (ki * 4 + 3) (if ki % 2 = 0 then 1 else weight)

/-- Lines 529-546: `circle_coefs`, a vector of `(dim + 1) * num_coefs_circ`
zeros after the two loops. -/
def circleCoefs (weight : ℚ) (center axis cross : Point) (dim num_coefs_circ : Nat) : List ℚ :=
  (List.range 9).foldl (circleWeight weight)
    ((List.range 3).foldl (circleCoordinates weight center axis cross)
      (List.replicate ((dim + 1) * num_coefs_circ) 0))

/-- Lines 552-554: `for (kk = 0; kk < order_circ; ++kk) knots[kk] = 0.0;`, from
`kk` on, with a bound on the number of rounds.  The result is `kk` after the
loop and the knots. -/
def knotsStart (order_circ : Nat) : Nat → Nat → List ℚ → Nat × List ℚ
  | 0, kk, knots => (kk, knots)
  | rounds + 1, kk, knots =>
    if kk < order_circ then knotsStart order_circ rounds (kk + 1) (knots.set kk 0)
    else (kk, knots)

/-- Lines 556-558: `for (; kk < num_coefs_circ; kk += 2, ++val)
knots[kk] = knots[kk+1] = (double)(val);`.  The result is `kk` and `val` after
the loop and the knots. -/
def knotsInner (num_coefs_circ : Nat) : Nat → Nat → Nat → List ℚ → Nat × Nat × List ℚ
  | 0, kk, val, knots => (kk, val, knots)
  | rounds + 1, kk, val, knots =>
    if kk < num_coefs_circ then
      knotsInner num_coefs_circ rounds (kk + 2) (val + 1)
        ((knots.set (kk + 1) (val : ℚ)).set kk (val : ℚ))
    else (kk, val, knots)

/-- Lines 559-561: `for (; kk < num_coefs_circ + order_circ; ++kk)
knots[kk] = (double)(val);`. -/
def knotsEnd (size val : Nat) : Nat → Nat → List ℚ → List ℚ
  | 0, _, knots => knots
  | rounds + 1, kk, knots =>
    if kk < size then knotsEnd size val rounds (kk + 1) (knots.set kk (val : ℚ))
    else knots

/-- Lines 549-561: the knot vector of the circle, a vector of
`num_coefs_circ + order_circ` zeros after the three loops; each loop moves `kk`
on by at least one, so as many rounds as there are knots finish it. -/
def circleKnots (num_coefs_circ order_circ : Nat) : List ℚ :=
  let started := knotsStart order_circ (num_coefs_circ + order_circ) 0
    (List.replicate (num_coefs_circ + order_circ) 0)
  let inner := knotsInner num_coefs_circ (num_coefs_circ + order_circ) started.1 1 started.2
  knotsEnd (num_coefs_circ + order_circ) inner.2.1 (num_coefs_circ + order_circ)
    inner.1 inner.2.2

/-- `CurveCreators::createCircle(center, axis, normal, radius)`.  Only the
dimension of `center` is checked; the coordinates `axis[ki]` and `cross[ki]`
are read for `ki < 3` whatever the dimension of `axis` and `normal` (a
coordinate a point does not have reads as 0). -/
def createCircle (G : CircleServices) (center axis normal : Point) (radius : ℚ) :
    Except Fault SplineCurve :=
  if center.length ≠ 3 then
    Except.error (Fault.raised "createCircle" "Input pts must be of dimension 3!")
  else
    let axis := (G.normalize axis).map (fun coordinate => coordinate * radius)
    let normal := G.normalize normal
    let dim := center.length
    let num_coefs_circ := 9
    let weight := 1 / G.sqrt 2
    let cross := G.cross normal axis
    let circle_coefs := circleCoefs weight center axis cross dim num_coefs_circ
    let order_circ := 3
    let knots := circleKnots num_coefs_circ order_circ
    Except.ok (SplineCurve.createRational G.nonRationalCoefs num_coefs_circ order_circ
      knots circle_coefs dim)

/-! ### `approxCurves` -/

/-- The parts of the library `approxCurves` calls and `CurveCreators.C` does not
define.
* `estimatedCurveLength c`: `c.estimatedCurveLength()`;
* `point c t`: `c.point(pt, t)`;
* `dist p q`: `p.dist(q)`;
* `normalize p`: the point `p` after `p.normalize()`;
* `getApproxCurve points params dim approxtol in out start_pt end_pt max_iter`:
  the pointer `getApproxCurve(maxdist, avdist, max_iter)` returns for
  `ApproxCurve(points, params, dim, approxtol, in, out)` after
  `setEndPoints(start_pt, end_pt)` (`none` is the null pointer), with the values
  it leaves in `maxdist` and `avdist`. -/
structure ApproxServices where
  estimatedCurveLength : SplineCurve → ℚ
  point : SplineCurve → ℚ → Point
  dist : Point → Point → ℚ
  normalize : Point → Point
  getApproxCurve : List ℚ → List ℚ → Int → ℚ → Int → Int → List Point → List Point → Int →
    Option SplineCurve × ℚ × ℚ

/-- The conversion `(int)x` of a `double` to the 32-bit `int`: the fraction is
dropped, and a value whose integer part is not an `int` gives `-2^31`, the
result of the conversion instruction of x86-64. -/
def truncate (x : ℚ) : Int :=
  if -2147483648 ≤ (if 0 ≤ x then x.floor else x.ceil) ∧
      (if 0 ≤ x then x.floor else x.ceil) ≤ 2147483647 then
    (if 0 ≤ x then x.floor else x.ceil)
  else -2147483648

/-- Line 225: `nmbsample = std::max(5, std::min(1000, (int)(len/approxtol)))`.
With `approxtol = 0` the quotient is infinite or not a number, which converts
like a value that is too large. -/
def sampleCount (len approxtol : ℚ) : Int :=
  max 5 (min 1000 (if approxtol = 0 then -2147483648 else truncate (len / approxtol)))

/-- What the sampling loops carry: `points`, `params` and `pt1`. -/
structure Samples where
  points : List ℚ
  params : List ℚ
  pt1 : Point

/-- Lines 243-250: the loop `for (kj=1, tpar=t1+tint; kj<nmbsample; kj++,
tpar+=tint)`, by the number of rounds left. -/
def sampleCurve (A : ApproxServices) (crv : SplineCurve) (tint : ℚ) :
    Nat → ℚ → Samples → Samples
  | 0, _, samples => samples
  | rounds + 1, tpar, samples =>
    sampleCurve A crv tint rounds (tpar + tint)
      { points := samples.points ++ A.point crv tpar
        params := samples.params ++
          [samples.params.getLastD 0 + A.dist samples.pt1 (A.point crv tpar)]
        pt1 := A.point crv tpar }

/-- Lines 215-251: the loop over the curves `first_crv[ki]`, `ki < nmbcrvs`;
`first` says whether `ki == 0`.  The result is `dim` and the samples. -/
def sampleCurves (A : ApproxServices) (approxtol : ℚ) :
    List SplineCurve → Bool → Int → Samples → Int × Samples
  | [], _, dim, samples => (dim, samples)
  | crv :: rest, first, _, samples =>
    let nmbsample := sampleCount (A.estimatedCurveLength crv) approxtol
    let t1 := crv.startparam
    let t2 := crv.endparam
    let started : Samples :=
      if first then
        { points := samples.points ++ A.point crv t1
          params := samples.params ++ [0]
          pt1 := A.point crv t1 }
      else samples
    let tint := (t2 - t1) / ((nmbsample - 1 : Int) : ℚ)
    sampleCurves A approxtol rest false crv.dimension
      (sampleCurve A crv tint (nmbsample - 1).toNat (t1 + tint) started)

/-- Lines 258-261 (and 262-265): the private copy of `start_pt` (of `end_pt`)
with the tangent, its second point, normalised when there is one. -/
def normalizeTangent (A : ApproxServices) (pts : List Point) : List Point :=
  if pts.length > 1 then pts.set 1 (A.normalize (pts.getD 1 [])) else pts

/-- Lines 257-265: `nmb_derivatives`. -/
def countDerivatives (start_pt end_pt : List Point) : Int :=
  (if start_pt.length > 1 then 1 else 0) + (if end_pt.length > 1 then 1 else 0)

/-- What a call of `approxCurves` leaves: the curve behind the returned
pointer (`none` when the approximator gave the null pointer, which line 280
dereferences: the call does not return), the value of the output argument
`maxdist`, the messages emitted, and the caller's vectors `start_pt` and
`end_pt` after the call. -/
structure ApproxOutcome where
  returned : Option SplineCurve
  maxdist : ℚ
  messages : List String
  start_pt : List Point
  end_pt : List Point

/-- `CurveCreators::approxCurves(first_crv, last_crv, start_pt, end_pt,
approxtol, maxdist, max_iter)`; `crvs` is the range `first_crv .. last_crv`.
`clone()` copies a curve: the copy is the same value. -/
def approxCurves (A : ApproxServices) (crvs : List SplineCurve) (start_pt end_pt : List Point)
    (approxtol : ℚ) (max_iter : Int) : ApproxOutcome :=
  let start_pt_cpy := start_pt
  let end_pt_cpy := end_pt
  let sampled := sampleCurves A approxtol crvs true (-1) { points := [], params := [], pt1 := [] }
  let nmb_derivatives := countDerivatives start_pt_cpy end_pt_cpy
  let approximation := A.getApproxCurve sampled.2.points sampled.2.params sampled.1 approxtol
    (4 + nmb_derivatives) 4 (normalizeTangent A start_pt_cpy) (normalizeTangent A end_pt_cpy)
    max_iter
  { returned := approximation.1
    maxdist := approximation.2.1
    messages :=
      if approximation.2.1 > approxtol then
        ["Failed iterating towards curve pieces! User must decide if close enough."]
      else []
    start_pt := start_pt
    end_pt := end_pt }

/-! ### Example inputs -/

/-- The straight line from `(0,0,0)` to `(10,0,0)`, unit speed, against the
point `(5,1,0)` with `ε = 0.001`.  The coincidence test looks at both ends of
the subdomain (the distance to a point is convex along a line), the distance is
monotone on a subdomain that does not have the foot `t = 5` in its interior,
the linear model puts the closest point at `t = 5`, and subdivision is at the
midpoint. -/
def lineAgainstFarPoint : CvPtNumerics :=
  { curve := fun t => [t, 0, 0]
    point := [5, 1, 0]
    eps := 1 / 1000
    microWidth := 1 / 1000000
    checkCoincidence := fun lo hi =>
      decide (Point.dist2 [lo, 0, 0] [5, 1, 0] ≤ 1 / 1000000)
        && decide (Point.dist2 [hi, 0, 0] [5, 1, 0] ≤ 1 / 1000000)
    monotoneDistance := fun lo hi => decide (hi ≤ 5 ∨ 5 ≤ lo)
    newtonStep := fun _ _ => 5
    getSubdivisionParameter := fun lo hi => (SubdivisionClassification.canDivide, (lo + hi) / 2) }

/-- A curve-point intersector over a curve with domain `[0, 10]`. -/
def lineIntersector : CvPtIntersector :=
  { obj_int := ({ kind := GeomKind.curve, geom := 0, domain := [(0, 10)] },
                { kind := GeomKind.point, geom := 1, domain := [] })
    epsge := { epsge := 1 / 1000 }
    prev := none
    eliminated_parameter := -1
    eliminated_value := 0
    int_results := []
    cv_idx := 0
    pt_idx := 1 }

/-- A space curve that is not a spline curve: dimension 3, domain `[0, 1]`. -/
def sampleSpaceCurve : ParamCurve := ParamCurve.other 7 3 0 1

/-- Library answers for `sampleSpaceCurve`: end distances `1/2` and `1/4`, and
an approximator that returns a straight segment between the first and the
last initial parameter. -/
def sampleProjectServices : ProjectServices :=
  { endDistances := fun _ => (1 / 2, 1 / 4)
    hermiteAppC := fun _ initpars _ _ =>
      some (SplineCurve.create 2 2 [initpars.headD 0, initpars.headD 0,
        initpars.getLastD 0, initpars.getLastD 0] [0, 0, 1, 1] 2) }

/-- A spline library stub for the examples: evaluation gives the first
coefficients of the curve, interpolation hands the points back as
coefficients, order raising and knot insertion leave the curve as it is. -/
def sampleSplineServices : SplineServices :=
  { point := fun c _ => c.coefs.take c.dimension.toNat
    interpolate := fun _ _ points => points
    raiseOrder := fun c => c
    insertKnot := fun c _ => c }

/-- The constant function 1 on `[0, 1]` as a linear spline. -/
def sampleAlpha : SplineCurve := SplineCurve.create 2 2 [0, 0, 1, 1] [1, 1] 1

/-- A planar segment on `[0, 1]` as a linear spline. -/
def sampleF : SplineCurve := SplineCurve.create 2 2 [0, 0, 1, 1] [0, 0, 2, 4] 2

/-- A rational planar curve with two control points: the projected
coefficients `(0,0)`, `(2,4)` and the homogeneous values with weights `1`
and `1/2`. -/
def sampleRational : SplineCurve :=
  { dim := 2
    rational := true
    basis := { num_coefs := 2, order := 2, knots := [0, 0, 1, 1] }
    coefs := [0, 0, 2, 4]
    rcoefs := [0, 0, 1, 1, 2, 1 / 2] }

/-- Library answers for the circle examples: `sqrt(2.0)` to four decimals,
points that are already of length 1 (`normalize` leaves them), the cross
product of two points by coordinates, and a rational curve whose non-rational
coefficients are not looked at. -/
def sampleCircleServices : CircleServices :=
  { sqrt := fun x => if x = 2 then 14142 / 10000 else x
    normalize := fun p => p
    cross := fun p q =>
      [p.getD 1 0 * q.getD 2 0 - p.getD 2 0 * q.getD 1 0,
       p.getD 2 0 * q.getD 0 0 - p.getD 0 0 * q.getD 2 0,
       p.getD 0 0 * q.getD 1 0 - p.getD 1 0 * q.getD 0 0]
    nonRationalCoefs := fun _ rcoefs => rcoefs }

/-- The constant 1 on `[0, 1]` as a spline of order 1 (one coefficient, knots
`0, 1`). -/
def constantAlpha : SplineCurve := SplineCurve.create 1 1 [0, 1] [1] 1

/-- The constant 2 on `[0, 1]` as a spline of order 1. -/
def constantF : SplineCurve := SplineCurve.create 1 1 [0, 1] [2] 1

/-- A function of order 2 on `[0, 1]` with the interior knot `1/2` of full
multiplicity: it falls from 1 to 1/2 on the left half and, after a jump, rises
from 0 to 1 on the right half. -/
def jumpAlpha : SplineCurve :=
  SplineCurve.create 4 2 [0, 0, 1 / 2, 1 / 2, 1, 1] [1, 1 / 2, 0, 1] 1

/-- A planar curve of order 2 on `[0, 1]` with the interior knot `1/4`. -/
def kinkF : SplineCurve := SplineCurve.create 3 2 [0, 0, 1 / 4, 1, 1] [0, 0, 1, 1, 2, 0] 2

/-- An approximator stub for the examples: it returns the first curve of its
choice, a segment, and reports the distances `3` and `1`. -/
def sampleApproxServices : ApproxServices :=
  { estimatedCurveLength := fun _ => 3000000000
    point := fun c t => [t, c.coefs.headD 0]
    dist := fun p q => |p.headD 0 - q.headD 0|
    normalize := fun p => p.map (fun coordinate => coordinate / 2)
    getApproxCurve := fun _ _ _ _ _ _ _ _ _ => (some sampleF, 3, 1) }

/-! ## Theorems -/

/-! ### `CvPtIntersector` -/

/-- C1: `numParams()` returns 1 for every `CvPtIntersector`, whatever operands,
tolerance, parent, eliminated parameter and eliminated value it holds. -/
theorem numParams_eq_one (self : CvPtIntersector) : self.numParams = 1 := rfl

theorem updateIntersections_nil (N : CvPtNumerics) (known : List IntResult) :
    N.updateIntersections known [] = known := by
  simp [CvPtNumerics.updateIntersections]

theorem computeNode_far (N : CvPtNumerics)
    (hsound : ∀ a b t : ℚ, N.checkCoincidence a b = true → a ≤ t → t ≤ b → N.within t = true) :
    ∀ (depth : Nat) (lo hi : ℚ), lo ≤ hi →
      (∀ t : ℚ, lo ≤ t → t ≤ hi → N.within t = false) →
      N.computeNode depth lo hi = [] := by
  intro depth
  induction depth with
  | zero => intro lo hi _ _; rfl
  | succ depth ih =>
    intro lo hi hle hfar
    have hco : N.checkCoincidence lo hi = false := by
      cases hc : N.checkCoincidence lo hi with
      | false => rfl
      | true =>
        have h1 := hsound lo hi lo hc le_rfl hle
        rw [hfar lo le_rfl hle] at h1
        exact absurd h1 (by decide)
    have hmid : N.within ((lo + hi) / 2) = false :=
      hfar _ (by linarith) (by linarith)
    have hlin : N.linearCase lo hi = none := by
      unfold CvPtNumerics.linearCase
      split
      · split
        · rename_i h
          rw [hfar _ h.1 h.2.1] at h
          exact absurd h.2.2 (by decide)
        · rfl
      · rfl
    unfold CvPtNumerics.computeNode
    simp only [hco, Bool.false_eq_true, if_false, hlin]
    split
    · simp [CvPtNumerics.microCase, hmid]
    · split
      · rfl
      · rename_i par _
        split
        · rename_i hpar
          have h1 : N.computeNode depth lo par = [] :=
            ih lo par (le_of_lt hpar.1)
              (fun t h1 h2 => hfar t h1 (le_trans h2 (le_of_lt hpar.2)))
          have h2 : N.computeNode depth par hi = [] :=
            ih par hi (le_of_lt hpar.2)
              (fun t h1 h2 => hfar t (le_trans (le_of_lt hpar.1) h1) h2)
          rw [h1, h2]
          simp [CvPtNumerics.updateIntersections]
        · rfl

theorem lineAgainstFarPoint_within (t : ℚ) : lineAgainstFarPoint.within t = false := by
  have h : (1000 : ℚ)⁻¹ * 1000⁻¹ < (t - 5) * (t - 5) + 1 := by
    have h0 := mul_self_nonneg (t - 5)
    norm_num
    linarith
  simp [CvPtNumerics.within, lineAgainstFarPoint, Point.dist2, h]

/-- C3: when the distance from the curve to the point exceeds ε at every
parameter of the curve's domain, `compute()` leaves no result in the result
list (on the search as the spec describes it, with a coincidence test that
only answers yes when the curve is within ε on the whole subdomain). -/
theorem compute_no_result_when_far (self : CvPtIntersector) (N : CvPtNumerics) (depth : Nat)
    (hdomain : self.curveDomain.1 ≤ self.curveDomain.2)
    (hsound : ∀ a b t : ℚ, N.checkCoincidence a b = true → a ≤ t → t ≤ b → N.within t = true)
    (hfar : ∀ t : ℚ, self.curveDomain.1 ≤ t → t ≤ self.curveDomain.2 → N.within t = false) :
    (self.compute N depth).int_results = [] :=
  computeNode_far N hsound depth _ _ hdomain hfar

theorem compute_no_result_when_far_witness :
    (lineIntersector.compute lineAgainstFarPoint 40).int_results = [] :=
  compute_no_result_when_far lineIntersector lineAgainstFarPoint 40
    (by simp [CvPtIntersector.curveDomain, lineIntersector])
    (fun a b t h _ _ => by
      have ha := lineAgainstFarPoint_within a
      simp only [CvPtNumerics.within, lineAgainstFarPoint] at ha
      simp only [lineAgainstFarPoint] at h
      norm_num at ha
      norm_num at h
      exact absurd h.1 (not_le.mpr ha))
    (fun t _ _ => lineAgainstFarPoint_within t)

/-- C4: construction runs `sortParameterDirections`; it succeeds exactly when
one operand is a curve and the other a point, then `cv_idx_` is the index
(0 or 1) of the curve operand and `pt_idx_` the other index; it signals the
contract violation when both operands or neither operand is a curve. -/
theorem construct_sorts_operands (obj1 obj2 : ParamGeomInt) (epsge : GeoTol)
    (prev : Option Nat) (eliminated_parameter : Int) (eliminated_value : ℚ) :
    ((∃ s, CvPtIntersector.construct obj1 obj2 epsge prev eliminated_parameter
          eliminated_value = Except.ok s) ↔
      ((obj1.kind = GeomKind.curve ∧ obj2.kind = GeomKind.point) ∨
       (obj1.kind = GeomKind.point ∧ obj2.kind = GeomKind.curve))) ∧
    (∀ s, CvPtIntersector.construct obj1 obj2 epsge prev eliminated_parameter
          eliminated_value = Except.ok s →
      s.obj_int = (obj1, obj2) ∧
      ((s.cv_idx = 0 ∧ s.pt_idx = 1 ∧ obj1.kind = GeomKind.curve ∧ obj2.kind = GeomKind.point) ∨
       (s.cv_idx = 1 ∧ s.pt_idx = 0 ∧ obj2.kind = GeomKind.curve ∧ obj1.kind = GeomKind.point))) ∧
    (((obj1.kind = GeomKind.curve ∧ obj2.kind = GeomKind.curve) ∨
      (obj1.kind ≠ GeomKind.curve ∧ obj2.kind ≠ GeomKind.curve)) →
      CvPtIntersector.construct obj1 obj2 epsge prev eliminated_parameter
          eliminated_value = Except.error ContractViolation.operandRoles) := by
  unfold CvPtIntersector.construct sortParameterDirections
  cases h1 : obj1.kind <;> cases h2 : obj2.kind <;> simp

/-- C5: `repairIntersections()` returns 0 and leaves the intersector, its
operands, indices and result list, as it was. -/
theorem repairIntersections_returns_zero_unchanged (self : CvPtIntersector) :
    self.repairIntersections.1 = 0 ∧ self.repairIntersections.2 = self ∧
    self.repairIntersections.2.obj_int = self.obj_int ∧
    self.repairIntersections.2.cv_idx = self.cv_idx ∧
    self.repairIntersections.2.pt_idx = self.pt_idx ∧
    self.repairIntersections.2.int_results = self.int_results :=
  ⟨rfl, rfl, rfl, rfl, rfl, rfl⟩

/-! ### `CurveCreators` -/

/-- C6: once past the entry assertion, `projectSpaceCurve` returns the clone of
the curve the Hermite approximator produced (`NULL` exactly when it produced
none) whether or not the larger end-point distance exceeds `epsge`; exceeding
it only adds the diagnostics, and no other choice of end distances changes
the returned value. -/
theorem projectSpaceCurve_returns_approximation (P : ProjectServices) (checked : Bool)
    (space_cv : ParamCurve) (surf : ParamSurface) (start_par_pt end_par_pt : Option Point)
    (epsge : ℚ) (domain_of_interest : Option (ℚ × ℚ × ℚ × ℚ))
    (hentry : checked = true → space_cv.dimension = 3) :
    (projectSpaceCurve P checked space_cv surf start_par_pt end_par_pt epsge
        domain_of_interest).result =
      Except.ok (P.hermiteAppC
        { space_cv := space_cv, surf := surf, start_par_pt := start_par_pt,
          end_par_pt := end_par_pt, epsge := epsge, domain_of_interest := domain_of_interest }
        (initialParameters space_cv) epsge (1 / 100)) ∧
    ((projectSpaceCurve P checked space_cv surf start_par_pt end_par_pt epsge
        domain_of_interest).diagnostics ≠ [] ↔
      max (P.endDistances
        { space_cv := space_cv, surf := surf, start_par_pt := start_par_pt,
          end_par_pt := end_par_pt, epsge := epsge,
          domain_of_interest := domain_of_interest }).1
        (P.endDistances
        { space_cv := space_cv, surf := surf, start_par_pt := start_par_pt,
          end_par_pt := end_par_pt, epsge := epsge,
          domain_of_interest := domain_of_interest }).2 > epsge) ∧
    (∀ distances : ProjectCurve → ℚ × ℚ,
      (projectSpaceCurve { P with endDistances := distances } checked space_cv surf
          start_par_pt end_par_pt epsge domain_of_interest).result =
        (projectSpaceCurve P checked space_cv surf start_par_pt end_par_pt epsge
          domain_of_interest).result) := by
  have hno : ¬ (checked = true ∧ space_cv.dimension ≠ 3) := fun h => h.2 (hentry h.1)
  refine ⟨?_, ?_, ?_⟩
  · simp only [projectSpaceCurve, if_neg hno]
  · simp only [projectSpaceCurve, if_neg hno]
    split <;> simp_all
  · intro distances
    simp only [projectSpaceCurve, if_neg hno]

theorem projectSpaceCurve_returns_approximation_witness :
    (projectSpaceCurve sampleProjectServices true sampleSpaceCurve { geom := 3 } none none
        (1 / 1000) none).result =
      Except.ok (sampleProjectServices.hermiteAppC
        { space_cv := sampleSpaceCurve, surf := { geom := 3 }, start_par_pt := none,
          end_par_pt := none, epsge := 1 / 1000, domain_of_interest := none }
        (initialParameters sampleSpaceCurve) (1 / 1000) (1 / 100)) ∧
    (projectSpaceCurve sampleProjectServices true sampleSpaceCurve { geom := 3 } none none
        (1 / 1000) none).diagnostics ≠ [] :=
  ⟨(projectSpaceCurve_returns_approximation sampleProjectServices true sampleSpaceCurve
      { geom := 3 } none none (1 / 1000) none (fun _ => rfl)).1,
   (projectSpaceCurve_returns_approximation sampleProjectServices true sampleSpaceCurve
      { geom := 3 } none none (1 / 1000) none (fun _ => rfl)).2.1.mpr
      (by norm_num [sampleProjectServices])⟩

/-- C8: `multCurveWithFunction` ends in an error if and only if
`alpha.dimension()` is not 1 or the start or end parameter of `f` differs from
that of `alpha`; the dimension is checked first, so a wrong dimension gives
the dimension error whatever the parameter intervals are. -/
theorem multCurveWithFunction_precondition (S : SplineServices) (alpha f : SplineCurve) :
    ((∃ e, multCurveWithFunction S alpha f = Except.error e) ↔
      (alpha.dimension ≠ 1 ∨ f.startparam ≠ alpha.startparam ∨
        f.endparam ≠ alpha.endparam)) ∧
    (alpha.dimension ≠ 1 →
      multCurveWithFunction S alpha f =
        Except.error (Fault.raised "multCurveWithFunction"
          "Dimension of function is different from 1.")) ∧
    (alpha.dimension = 1 →
      (f.startparam ≠ alpha.startparam ∨ f.endparam ≠ alpha.endparam) →
      multCurveWithFunction S alpha f =
        Except.error (Fault.raised "multCurveWithFunction"
          "Parameter intervals of the curves do not coincide.")) := by
  unfold multCurveWithFunction
  by_cases h1 : alpha.dimension ≠ 1
  · simp [h1]
  · by_cases h2 : f.startparam ≠ alpha.startparam ∨ f.endparam ≠ alpha.endparam
    · simp only [h1, h2, if_true, if_false]
      simp
    · simp only [h1, h2, if_false]
      simp

theorem multCurveWithFunction_ok_of_checks (S : SplineServices) (alpha f : SplineCurve)
    (hdim : alpha.dimension = 1) (hstart : f.startparam = alpha.startparam)
    (hend : f.endparam = alpha.endparam) :
    ∃ c, multCurveWithFunction S alpha f = Except.ok c := by
  unfold multCurveWithFunction
  simp [hdim, hstart, hend]

/-- C7: `blend` signals a precondition error if and only if `alpha_1` or
`alpha_2` has a dimension other than 1, or `f_1` and `f_2` differ in dimension,
or the start or end parameter of `alpha_2`, `f_1` or `f_2` differs from that
of `alpha_1`; when these checks pass, the checks inside both calls of
`multCurveWithFunction` pass too. -/
theorem blend_precondition (S : SplineServices) (alpha_1 f_1 alpha_2 f_2 : SplineCurve) :
    ((∃ origin message,
        blend S alpha_1 f_1 alpha_2 f_2 = Except.error (Fault.raised origin message)) ↔
      ((alpha_1.dimension ≠ 1 ∨ alpha_2.dimension ≠ 1) ∨
        f_1.dimension ≠ f_2.dimension ∨
        (alpha_2.startparam ≠ alpha_1.startparam ∨ alpha_2.endparam ≠ alpha_1.endparam
          ∨ f_1.startparam ≠ alpha_1.startparam ∨ f_1.endparam ≠ alpha_1.endparam
          ∨ f_2.startparam ≠ alpha_1.startparam ∨ f_2.endparam ≠ alpha_1.endparam))) ∧
    (¬ ((alpha_1.dimension ≠ 1 ∨ alpha_2.dimension ≠ 1) ∨
        f_1.dimension ≠ f_2.dimension ∨
        (alpha_2.startparam ≠ alpha_1.startparam ∨ alpha_2.endparam ≠ alpha_1.endparam
          ∨ f_1.startparam ≠ alpha_1.startparam ∨ f_1.endparam ≠ alpha_1.endparam
          ∨ f_2.startparam ≠ alpha_1.startparam ∨ f_2.endparam ≠ alpha_1.endparam)) →
      (∃ c, multCurveWithFunction S alpha_1 f_1 = Except.ok c) ∧
      (∃ c, multCurveWithFunction S alpha_2 f_2 = Except.ok c)) := by
  by_cases h1 : alpha_1.dimension ≠ 1 ∨ alpha_2.dimension ≠ 1
  · refine ⟨⟨fun _ => Or.inl h1, fun _ => ⟨"blend",
      "Dimension of (at least one) blend function differs from 1.", ?_⟩⟩,
      fun h => absurd (Or.inl h1) h⟩
    unfold blend
    rw [if_pos h1]
  · by_cases h2 : f_1.dimension ≠ f_2.dimension
    · refine ⟨⟨fun _ => Or.inr (Or.inl h2), fun _ => ⟨"blend",
        "Dimension mismatch between the spline curves to be blended.", ?_⟩⟩,
        fun h => absurd (Or.inr (Or.inl h2)) h⟩
      unfold blend
      rw [if_neg h1, if_pos h2]
    · by_cases h3 : alpha_2.startparam ≠ alpha_1.startparam ∨
          alpha_2.endparam ≠ alpha_1.endparam
          ∨ f_1.startparam ≠ alpha_1.startparam ∨ f_1.endparam ≠ alpha_1.endparam
          ∨ f_2.startparam ≠ alpha_1.startparam ∨ f_2.endparam ≠ alpha_1.endparam
      · refine ⟨⟨fun _ => Or.inr (Or.inr h3), fun _ => ⟨"blend",
          "Parameter intervals of the curves do not coincide.", ?_⟩⟩,
          fun h => absurd (Or.inr (Or.inr h3)) h⟩
        unfold blend
        rw [if_neg h1, if_neg h2, if_pos h3]
      · have hall : ¬ ((alpha_1.dimension ≠ 1 ∨ alpha_2.dimension ≠ 1) ∨
            f_1.dimension ≠ f_2.dimension ∨
            (alpha_2.startparam ≠ alpha_1.startparam ∨ alpha_2.endparam ≠ alpha_1.endparam
              ∨ f_1.startparam ≠ alpha_1.startparam ∨ f_1.endparam ≠ alpha_1.endparam
              ∨ f_2.startparam ≠ alpha_1.startparam ∨ f_2.endparam ≠ alpha_1.endparam)) := by
          rintro (h | h | h)
          · exact h1 h
          · exact h2 h
          · exact h3 h
        have hd1 : alpha_1.dimension = 1 := by
          by_contra h; exact h1 (Or.inl h)
        have hd2 : alpha_2.dimension = 1 := by
          by_contra h; exact h1 (Or.inr h)
        simp only [not_or, ne_eq, not_not] at h3
        obtain ⟨ha2s, ha2e, hf1s, hf1e, hf2s, hf2e⟩ := h3
        obtain ⟨c1, hc1⟩ := multCurveWithFunction_ok_of_checks S alpha_1 f_1 hd1 hf1s hf1e
        obtain ⟨c2, hc2⟩ := multCurveWithFunction_ok_of_checks S alpha_2 f_2 hd2
          (hf2s.trans ha2s.symm) (hf2e.trans ha2e.symm)
        refine ⟨⟨?_, fun h => absurd h hall⟩, fun _ => ⟨⟨c1, hc1⟩, ⟨c2, hc2⟩⟩⟩
        rintro ⟨origin, message, hb⟩
        exfalso
        unfold blend at hb
        rw [if_neg h1, if_neg h2] at hb
        rw [if_neg (by simp [ha2s, ha2e, hf1s, hf1e, hf2s, hf2e])] at hb
        simp only [hc1, hc2] at hb
        unfold addCoefs at hb
        split at hb
        · rename_i e hadd
          split at hadd
          · cases hadd
            cases hb
          · cases hadd
        · cases hb

theorem addOffset_length (off : Point) (block : List ℚ) (h : block.length ≤ off.length) :
    (addOffset off block).length = block.length := by
  simp [addOffset, List.length_zipWith, h]

theorem addOffset_getElem_opt (off : Point) (block : List ℚ) (ki : Nat) (x o : ℚ)
    (hx : block[ki]? = some x) (ho : off[ki]? = some o) :
    (addOffset off block)[ki]? = some (x + o) := by
  simp [addOffset, List.getElem?_zipWith, hx, ho]

theorem offsetLoop_spec (d : Nat) (off : Point) (hd : off.length = d) :
    ∀ (n rounds : Nat) (coefs : List ℚ), coefs.length = n * d → n ≤ rounds →
      ∃ out, offsetLoop d off rounds coefs = Except.ok out ∧ out.length = coefs.length ∧
        ∀ i ki : Nat, i < n → ki < d →
          ∃ x o, coefs[i * d + ki]? = some x ∧ off[ki]? = some o ∧
            out[i * d + ki]? = some (x + o) := by
  intro n
  induction n with
  | zero =>
    intro rounds coefs hlen _
    have hnil : coefs = [] := List.length_eq_zero.mp (by simpa using hlen)
    subst hnil
    refine ⟨[], ?_, rfl, ?_⟩
    · cases rounds <;> rfl
    · intro i ki hi; exact absurd hi (Nat.not_lt_zero _)
  | succ n ih =>
    intro rounds coefs hlen hrounds
    rcases Nat.eq_zero_or_pos d with hd0 | hdpos
    · subst hd0
      have hnil : coefs = [] := List.length_eq_zero.mp (by simpa using hlen)
      subst hnil
      refine ⟨[], ?_, rfl, ?_⟩
      · cases rounds <;> rfl
      · intro i ki _ hki; exact absurd hki (Nat.not_lt_zero _)
    · obtain ⟨r, rfl⟩ : ∃ r, rounds = r + 1 := ⟨rounds - 1, by omega⟩
      have hge : d ≤ coefs.length := by
        rw [hlen]; exact Nat.le_mul_of_pos_left d (Nat.succ_pos n)
      cases coefs with
      | nil => simp at hge; omega
      | cons c cs =>
        have hdrop : ((c :: cs).drop d).length = n * d := by
          rw [List.length_drop, hlen]; simp [Nat.succ_mul]
        obtain ⟨rest, hrest, hrlen, hrget⟩ := ih r ((c :: cs).drop d) hdrop (by omega)
        have htake : ((c :: cs).take d).length = d := by
          rw [List.length_take]; exact Nat.min_eq_left hge
        have halen : (addOffset off ((c :: cs).take d)).length = d := by
          rw [addOffset_length _ _ (by rw [htake, hd]), htake]
        refine ⟨addOffset off ((c :: cs).take d) ++ rest, ?_, ?_, ?_⟩
        · have hcond : ¬ ((c :: cs).length < d ∨ off.length < d) := by
            rw [hd]; omega
          simp only [offsetLoop, if_neg hcond, hrest]
        · rw [List.length_append, halen, hrlen, hdrop, hlen]; simp [Nat.succ_mul]; omega
        · intro i ki hi hki
          have hoff : ∃ o, off[ki]? = some o := by
            refine ⟨off[ki], ?_⟩
            exact List.getElem?_eq_getElem (by omega)
          obtain ⟨o, ho⟩ := hoff
          cases i with
          | zero =>
            have hx : ∃ x, (c :: cs)[ki]? = some x :=
              ⟨(c :: cs)[ki], List.getElem?_eq_getElem (by omega)⟩
            obtain ⟨x, hx⟩ := hx
            refine ⟨x, o, by simpa using hx, ho, ?_⟩
            have hin : ki < (addOffset off ((c :: cs).take d)).length := by omega
            rw [Nat.zero_mul, Nat.zero_add, List.getElem?_append_left hin]
            apply addOffset_getElem_opt _ _ _ _ _ _ ho
            rw [List.getElem?_take_of_lt hki]; exact hx
          | succ i =>
            obtain ⟨x, o2, hx, ho2, hout⟩ := hrget i ki (by omega) hki
            have ho_eq : o2 = o := by rw [ho] at ho2; exact (Option.some.inj ho2).symm
            subst ho_eq
            have hidx : (i + 1) * d + ki = d + (i * d + ki) := by
              rw [Nat.succ_mul]; omega
            refine ⟨x, o2, ?_, ho, ?_⟩
            · rw [hidx, ← List.getElem?_drop]; exact hx
            · rw [hidx, List.getElem?_append_right (by omega), halen]
              simpa using hout

theorem set_union_length_ge : ∀ (xs ys : List ℚ), xs.length ≤ (set_union xs ys).length := by
  intro xs ys
  induction xs, ys using set_union.induct with
  | case1 ys => simp [set_union]
  | case2 x xs => simp [set_union]
  | case3 x xs y ys h ih =>
    rw [set_union, if_pos h]
    simp only [List.length_cons] at ih ⊢
    omega
  | case4 x xs y ys h1 h2 ih =>
    rw [set_union, if_neg h1, if_pos h2]
    simp only [List.length_cons] at ih ⊢
    omega
  | case5 x xs y ys h1 h2 ih =>
    rw [set_union, if_neg h1, if_neg h2]
    simp only [List.length_cons] at ih ⊢
    omega

theorem insertMultipleKnots_length_ge (extra : Nat) :
    ∀ (ks : List ℚ), ks ≠ [] → ks.length + extra ≤ (insertMultipleKnots extra ks).length := by
  intro ks
  induction ks using insertMultipleKnots.induct extra with
  | case1 => intro h; exact absurd rfl h
  | case2 k => intro _; simp [insertMultipleKnots]; omega
  | case3 k k1 rest h ih =>
    intro _
    have := ih (by simp)
    rw [insertMultipleKnots, if_pos h]
    simp only [List.length_cons, List.length_append, List.length_replicate] at this ⊢
    omega
  | case4 k k1 rest h ih =>
    intro _
    have := ih (by simp)
    rw [insertMultipleKnots, if_neg h]
    simp only [List.length_cons] at this ⊢
    omega

theorem foldl_knots_eq_sum (knots : List ℚ) (i : Nat) :
    ∀ m : Nat, i + 1 + m ≤ knots.length →
      (List.range m).foldl (fun tpar j => tpar + knots.getD (i + (j + 1)) 0) 0 =
        ((knots.drop (i + 1)).take m).sum := by
  intro m
  induction m with
  | zero => intro _; simp
  | succ m ih =>
    intro h
    rw [List.range_succ, List.foldl_append, ih (by omega), List.take_succ, List.sum_append]
    have hget : (knots.drop (i + 1))[m]? = some (knots.getD (i + (m + 1)) 0) := by
      rw [List.getElem?_drop, List.getD_eq_getElem?_getD]
      have hlt : i + 1 + m < knots.length := by omega
      rw [show i + (m + 1) = i + 1 + m by omega, List.getElem?_eq_getElem hlt]
      simp
    simp [hget]

theorem coefParameter_eq_greville (knots : List ℚ) (order : Int) (i : Nat)
    (horder : 1 ≤ order) (hi : (i : Int) + order ≤ knots.length) :
    coefParameter knots order i = grevilleParameter knots order i := by
  unfold coefParameter grevilleParameter
  by_cases h1 : order - 1 = 0
  · have : order ≤ 1 := by omega
    simp [h1, this]
  · have h2 : ¬ order ≤ 1 := by omega
    rw [if_neg h1, if_neg h2, foldl_knots_eq_sum knots i _ (by omega)]


theorem flatten_block_getElem_opt (m : Nat) :
    ∀ (blocks : List (List ℚ)), (∀ b ∈ blocks, b.length = m) →
      blocks.flatten.length = blocks.length * m ∧
      ∀ (i j : Nat) (b : List ℚ), blocks[i]? = some b → j < m →
        blocks.flatten[i * m + j]? = b[j]? := by
  intro blocks
  induction blocks with
  | nil => intro _; simp
  | cons b0 bs ih =>
    intro hall
    have hb0 : b0.length = m := hall b0 (by simp)
    obtain ⟨hlen, hget⟩ := ih (fun b hb => hall b (by simp [hb]))
    refine ⟨?_, ?_⟩
    · simp only [List.flatten_cons, List.length_append, List.length_cons, hlen, hb0]
      rw [Nat.succ_mul]; omega
    · intro i j b hb hj
      cases i with
      | zero =>
        simp only [List.getElem?_cons_zero, Option.some.injEq] at hb
        subst hb
        rw [List.flatten_cons, Nat.zero_mul, Nat.zero_add,
          List.getElem?_append_left (by omega)]
      | succ i =>
        simp only [List.getElem?_cons_succ] at hb
        have hidx : (i + 1) * m + j = b0.length + (i * m + j) := by
          rw [Nat.succ_mul, hb0]; omega
        rw [List.flatten_cons, hidx, List.getElem?_append_right (by omega)]
        simpa using hget i j b hb hj

theorem productValues_length (S : SplineServices) (alpha f : SplineCurve) (tpar : Option ℚ) :
    (productValues S alpha f tpar).length = f.dimension.toNat := by
  simp [productValues]

theorem multCurveWithFunction_eq_of_checks (S : SplineServices) (alpha f : SplineCurve)
    (hdim : alpha.dimension = 1) (hstart : f.startparam = alpha.startparam)
    (hend : f.endparam = alpha.endparam) :
    multCurveWithFunction S alpha f =
      Except.ok (SplineCurve.create
        (((productKnots alpha f).length : Int) - (alpha.order + f.order - 1))
        (alpha.order + f.order - 1)
        ((productKnots alpha f).take
          ((((productKnots alpha f).length : Int) - (alpha.order + f.order - 1))
            + (alpha.order + f.order - 1)).toNat)
        (S.interpolate
          { num_coefs := ((productKnots alpha f).length : Int) - (alpha.order + f.order - 1)
            order := alpha.order + f.order - 1
            knots := (productKnots alpha f).take
              ((((productKnots alpha f).length : Int) - (alpha.order + f.order - 1))
                + (alpha.order + f.order - 1)).toNat }
          (productParameters alpha f) (productPoints S alpha f))
        f.dimension) := by
  unfold multCurveWithFunction
  rw [if_neg (by simp [hdim]), if_neg (by simp [hstart, hend])]

/-- The interpolation problem `multCurveWithFunction` sets up for `alpha` of
dimension 1 and `f` on the same parameter interval, both of order at least 1:
the curve has order `alpha.order() + f.order() - 1`, dimension `f.dimension()`
and `num_coefs = (size of productKnots) - order` coefficients, and the
interpolator is handed `num_coefs` parameters, the `i`-th being
`grevilleParameter` (no number when the order is 1), with the values
`alpha(tpar_i) * f(tpar_i)`.  It does not say that the parameters differ or
that the interpolant is the product. -/
theorem multCurveWithFunction_interpolation_conditions (S : SplineServices)
    (alpha f : SplineCurve)
    (hdim : alpha.dimension = 1)
    (hstart : f.startparam = alpha.startparam) (hend : f.endparam = alpha.endparam)
    (halpha : 1 ≤ alpha.order) (hf : 1 ≤ f.order)
    (hknots : alpha.order ≤ (alpha.basis.knots.length : Int)) :
    ∃ c, multCurveWithFunction S alpha f = Except.ok c ∧
      c.order = alpha.order + f.order - 1 ∧
      c.dimension = f.dimension ∧
      c.basis.knots = productKnots alpha f ∧
      c.numCoefs = ((productKnots alpha f).length : Int) - c.order ∧
      0 ≤ c.numCoefs ∧
      c.coefs = (S.interpolate c.basis (productParameters alpha f)
        (productPoints S alpha f)).take (c.numCoefs * c.dimension).toNat ∧
      ((productParameters alpha f).length : Int) = c.numCoefs ∧
      (productPoints S alpha f).length =
        (productParameters alpha f).length * f.dimension.toNat ∧
      ∀ i : Nat, (i : Int) < c.numCoefs →
        (productParameters alpha f)[i]? =
          some (grevilleParameter (productKnots alpha f) c.order i) ∧
        ∀ j : Nat, (j : Int) < f.dimension →
          (productPoints S alpha f)[i * f.dimension.toNat + j]? =
            some ((S.point alpha (grevilleParameter (productKnots alpha f) c.order i)).getD 0 0 *
              (S.point f (grevilleParameter (productKnots alpha f) c.order i)).getD j 0) := by
  have hne : alpha.basis.knots ≠ [] := by
    intro h
    rw [h] at hknots
    simp at hknots
    omega
  have hlen : alpha.basis.knots.length + (f.order - 1).toNat ≤ (productKnots alpha f).length :=
    le_trans (insertMultipleKnots_length_ge (f.order - 1).toNat alpha.basis.knots hne)
      (set_union_length_ge _ _)
  have hblocks := flatten_block_getElem_opt f.dimension.toNat
    ((productParameters alpha f).map (fun tpar => productValues S alpha f tpar))
    (by
      intro b hb
      obtain ⟨tpar, _, rfl⟩ := List.mem_map.mp hb
      exact productValues_length S alpha f tpar)
  have hparlen : (productParameters alpha f).length =
      (((productKnots alpha f).length : Int) - (alpha.order + f.order - 1)).toNat := by
    simp [productParameters]
  refine ⟨_, multCurveWithFunction_eq_of_checks S alpha f hdim hstart hend, ?_⟩
  simp only [SplineCurve.order, SplineCurve.dimension, SplineCurve.numCoefs] at *
  have hnum : 0 ≤ ((productKnots alpha f).length : Int)
      - (alpha.basis.order + f.basis.order - 1) := by omega
  have htake : (((productKnots alpha f).length : Int)
      - (alpha.basis.order + f.basis.order - 1)
      + (alpha.basis.order + f.basis.order - 1)).toNat = (productKnots alpha f).length := by
    omega
  simp only [SplineCurve.create, htake, List.take_length]
  refine ⟨trivial, trivial, trivial, trivial, hnum, trivial, ?_, ?_, ?_⟩
  · rw [hparlen]
    exact Int.toNat_of_nonneg hnum
  · simpa [productPoints] using hblocks.1
  · intro i hi
    have hi2 : i < (((productKnots alpha f).length : Int)
        - (alpha.basis.order + f.basis.order - 1)).toNat := by omega
    have hpar : (productParameters alpha f)[i]? =
        some (grevilleParameter (productKnots alpha f)
          (alpha.basis.order + f.basis.order - 1) i) := by
      simp only [productParameters, SplineCurve.order, List.getElem?_map,
        List.getElem?_range hi2, Option.map]
      congr 1
      exact coefParameter_eq_greville (productKnots alpha f)
        (alpha.basis.order + f.basis.order - 1) i (by omega) (by omega)
    refine ⟨hpar, ?_⟩
    intro j hj
    have hj2 : j < f.dim.toNat := by omega
    have hb := hblocks.2 i j
      (productValues S alpha f
        (grevilleParameter (productKnots alpha f) (alpha.basis.order + f.basis.order - 1) i))
      (by simp [List.getElem?_map, hpar]) hj2
    rw [productPoints, hb]
    simp [productValues, List.getElem?_map, List.getElem?_range hj2, SplineCurve.dimension]

theorem multCurveWithFunction_interpolation_conditions_witness :
    ∃ c, multCurveWithFunction sampleSplineServices sampleAlpha sampleF = Except.ok c ∧
      c.order = 3 ∧ c.dimension = 2 ∧ c.numCoefs = 3 := by
  obtain ⟨c, hc, horder, hdim, _, hnum, _⟩ :=
    multCurveWithFunction_interpolation_conditions sampleSplineServices sampleAlpha sampleF
      rfl rfl rfl (by decide) (by decide) (by decide)
  refine ⟨c, hc, ?_, ?_, ?_⟩
  · rw [horder]; rfl
  · rw [hdim]; rfl
  · rw [hnum, horder]
    simp [productKnots, sampleAlpha, sampleF, SplineCurve.create, SplineCurve.order,
      insertMultipleKnots, set_union]

/-- What `offsetCurve` does to the range `coefs_begin() .. coefs_end()` of the
copy, for an `offset_val` of the curve's dimension and a range of
`numCoefs * dimension` values: `offset_val[ki]` is added to component `ki` of
every block of the range; basis, dimension and number of coefficients are
those of `base_cv`, `base_cv` is as it was, and the homogeneous values of a
rational curve are those of `base_cv`, not moved. -/
theorem offsetCurve_adds_offset (checked : Bool) (base_cv : SplineCurve) (offset_val : Point)
    (hdim : base_cv.dimension = (offset_val.length : Int))
    (hcoefs : (base_cv.coefs.length : Int) = base_cv.numCoefs * base_cv.dimension) :
    ∃ offset_cv, offsetCurve checked base_cv offset_val = Except.ok (base_cv, offset_cv) ∧
      offset_cv.basis = base_cv.basis ∧
      offset_cv.dim = base_cv.dim ∧
      offset_cv.rational = base_cv.rational ∧
      offset_cv.rcoefs = base_cv.rcoefs ∧
      offset_cv.coefs.length = base_cv.coefs.length ∧
      ∀ i ki : Nat, (i : Int) < base_cv.numCoefs → ki < offset_val.length →
        ∃ x o, base_cv.coefs[i * offset_val.length + ki]? = some x ∧
          offset_val[ki]? = some o ∧
          offset_cv.coefs[i * offset_val.length + ki]? = some (x + o) := by
  have hd : base_cv.dimension.toNat = offset_val.length := by rw [hdim]; simp
  by_cases hz : offset_val.length = 0
  · have hnil : base_cv.coefs = [] := by
      apply List.length_eq_zero.mp
      rw [hdim, hz] at hcoefs
      simpa using hcoefs
    obtain ⟨out, hout, hlen, _⟩ := offsetLoop_spec offset_val.length offset_val rfl 0
      (base_cv.coefs.length + 1) base_cv.coefs (by simp [hnil]) (Nat.zero_le _)
    refine ⟨{ base_cv with coefs := out }, ?_, rfl, rfl, rfl, rfl, hlen, ?_⟩
    · unfold offsetCurve
      simp only [hd, hout]
      rw [if_neg (by simp [hdim])]
    · intro i ki _ hki
      omega
  · have hpos : 0 < offset_val.length := Nat.pos_of_ne_zero hz
    have hn : 0 ≤ base_cv.numCoefs := by
      by_contra hneg
      have h1 : base_cv.numCoefs * base_cv.dimension < 0 := by
        rw [hdim]
        exact mul_neg_of_neg_of_pos (by omega) (by exact_mod_cast hpos)
      omega
    have hlenNat : base_cv.coefs.length = base_cv.numCoefs.toNat * offset_val.length := by
      have h2 : ((base_cv.numCoefs.toNat * offset_val.length : Nat) : Int)
          = base_cv.numCoefs * base_cv.dimension := by
        rw [hdim]; push_cast; rw [Int.toNat_of_nonneg hn]
      omega
    have hrounds : base_cv.numCoefs.toNat ≤ base_cv.coefs.length + 1 := by
      rw [hlenNat]
      have := Nat.le_mul_of_pos_right base_cv.numCoefs.toNat hpos
      omega
    obtain ⟨out, hout, hlen, hget⟩ := offsetLoop_spec offset_val.length offset_val rfl
      base_cv.numCoefs.toNat (base_cv.coefs.length + 1) base_cv.coefs hlenNat hrounds
    refine ⟨{ base_cv with coefs := out }, ?_, rfl, rfl, rfl, rfl, hlen, ?_⟩
    · unfold offsetCurve
      simp only [hd, hout]
      rw [if_neg (by simp [hdim])]
    · intro i ki hi hki
      exact hget i ki (by omega) hki

theorem offsetCurve_adds_offset_witness :
    ∃ offset_cv, offsetCurve true sampleRational [1, -1] = Except.ok (sampleRational, offset_cv) ∧
      offset_cv.basis = sampleRational.basis ∧
      offset_cv.coefs[1 * 2 + 1]? = some ((4 : ℚ) + (-1)) := by
  obtain ⟨offset_cv, hc, hbasis, _, _, _, _, hget⟩ :=
    offsetCurve_adds_offset true sampleRational [1, -1] rfl (by decide)
  obtain ⟨x, o, hx, ho, hout⟩ := hget 1 1 (by decide) (by decide)
  refine ⟨offset_cv, hc, hbasis, ?_⟩
  simp only [sampleRational, List.length_cons, List.length_nil] at hx ho hout
  simp at hx ho
  subst hx ho
  exact hout

theorem circleKnots_eq : circleKnots 9 3 = [0, 0, 0, 1, 1, 2, 2, 3, 3, 4, 4, 4] := by
  simp [circleKnots, knotsStart, knotsInner, knotsEnd, List.replicate, List.set]

theorem circleCoefs_eq (weight c0 c1 c2 : ℚ) (axis cross : Point) :
    circleCoefs weight [c0, c1, c2] axis cross 3 9 =
      [c0 + axis.getD 0 0, c1 + axis.getD 1 0, c2 + axis.getD 2 0, 1,
       weight * (c0 + axis.getD 0 0 + cross.getD 0 0),
       weight * (c1 + axis.getD 1 0 + cross.getD 1 0),
       weight * (c2 + axis.getD 2 0 + cross.getD 2 0), weight,
       c0 + cross.getD 0 0, c1 + cross.getD 1 0, c2 + cross.getD 2 0, 1,
       weight * (c0 - axis.getD 0 0 + cross.getD 0 0),
       weight * (c1 - axis.getD 1 0 + cross.getD 1 0),
       weight * (c2 - axis.getD 2 0 + cross.getD 2 0), weight,
       c0 - axis.getD 0 0, c1 - axis.getD 1 0, c2 - axis.getD 2 0, 1,
       weight * (c0 - axis.getD 0 0 - cross.getD 0 0),
       weight * (c1 - axis.getD 1 0 - cross.getD 1 0),
       weight * (c2 - axis.getD 2 0 - cross.getD 2 0), weight,
       c0 - cross.getD 0 0, c1 - cross.getD 1 0, c2 - cross.getD 2 0, 1,
       weight * (c0 + axis.getD 0 0 - cross.getD 0 0),
       weight * (c1 + axis.getD 1 0 - cross.getD 1 0),
       weight * (c2 + axis.getD 2 0 - cross.getD 2 0), weight,
       c0 + axis.getD 0 0, c1 + axis.getD 1 0, c2 + axis.getD 2 0, 1] := by
  simp [circleCoefs, circleCoordinates, circleWeight, List.range, List.range.loop,
    List.replicate, List.set]

theorem getD_scaled (p : Point) (radius : ℚ) (ki : Nat) :
    (p.map (fun coordinate => coordinate * radius)).getD ki 0 = p.getD ki 0 * radius := by
  induction p generalizing ki with
  | nil => simp
  | cons a rest ih =>
    cases ki with
    | zero => simp
    | succ ki => simpa using ih ki

/-- C11: for every center of dimension 3 `createCircle` returns a rational
curve of order 3 with 9 control points stored as 36 homogeneous values, on the
knot vector `[0,0,0,1,1,2,2,3,3,4,4,4]`, with weight 1 at the even control
points and `1/sqrt(2)` at the odd ones, whose first and last control points
are both `center + radius * axis/|axis|` with weight 1, so the curve is
closed; a center of any other dimension is rejected with an error. -/
theorem createCircle_returns_circle (G : CircleServices) (center axis normal : Point)
    (radius : ℚ) (hcenter : center.length = 3) :
    (∃ c, createCircle G center axis normal radius = Except.ok c ∧
      c.rational = true ∧ c.order = 3 ∧ c.numCoefs = 9 ∧ c.dimension = 3 ∧
      c.rcoefs.length = 36 ∧
      c.basis.knots = [0, 0, 0, 1, 1, 2, 2, 3, 3, 4, 4, 4] ∧
      (∀ i : Nat, i < 9 →
        c.rcoefs[4 * i + 3]? = some (if i % 2 = 0 then 1 else 1 / G.sqrt 2)) ∧
      (∀ ki : Nat, ki < 3 →
        c.rcoefs[ki]? =
          some (center.getD ki 0 + (G.normalize axis).getD ki 0 * radius) ∧
        c.rcoefs[32 + ki]? =
          some (center.getD ki 0 + (G.normalize axis).getD ki 0 * radius)) ∧
      c.rcoefs.take 4 = (c.rcoefs.drop 32).take 4) ∧
    (∀ other : Point, other.length ≠ 3 →
      createCircle G other axis normal radius =
        Except.error (Fault.raised "createCircle" "Input pts must be of dimension 3!")) := by
  refine ⟨?_, fun other h => ?_⟩
  · obtain ⟨c0, c1, c2, rfl⟩ := List.length_eq_three.mp hcenter
    have hcoefs := circleCoefs_eq (1 / G.sqrt 2) c0 c1 c2
      ((G.normalize axis).map (fun coordinate => coordinate * radius))
      (G.cross (G.normalize normal)
        ((G.normalize axis).map (fun coordinate => coordinate * radius)))
    refine ⟨SplineCurve.createRational G.nonRationalCoefs 9 3 (circleKnots 9 3)
      (circleCoefs (1 / G.sqrt 2) [c0, c1, c2]
        ((G.normalize axis).map (fun coordinate => coordinate * radius))
        (G.cross (G.normalize normal)
          ((G.normalize axis).map (fun coordinate => coordinate * radius))) 3 9) 3, ?_, ?_⟩
    · unfold createCircle
      rw [if_neg (by simp)]
      simp
    · simp only [getD_scaled] at hcoefs
      simp only [SplineCurve.createRational, SplineCurve.order, SplineCurve.numCoefs,
        SplineCurve.dimension, hcoefs, circleKnots_eq]
      refine ⟨trivial, trivial, ?_⟩
      have h36 : Int.toNat 36 = 36 := rfl
      have h12 : Int.toNat 12 = 12 := rfl
      refine ⟨?_, ?_, ?_, ?_, ?_, ?_, ?_⟩
      · norm_num
      · norm_num
      · norm_num [h36]
      · norm_num [h12]
      · intro i hi
        interval_cases i <;> norm_num [h36]
      · intro ki hki
        interval_cases ki <;> norm_num [h36]
      · norm_num [h36]
  · unfold createCircle
    rw [if_pos h]

theorem createCircle_returns_circle_witness :
    ∃ c, createCircle sampleCircleServices [1, 2, 3] [1, 0, 0] [0, 0, 1] 2 = Except.ok c ∧
      c.order = 3 ∧ c.rcoefs.length = 36 ∧
      c.basis.knots = [0, 0, 0, 1, 1, 2, 2, 3, 3, 4, 4, 4] ∧
      c.rcoefs[0]? = some 3 ∧ c.rcoefs[32]? = some 3 := by
  obtain ⟨c, hc, _, horder, _, _, hlen, hknots, _, hends, _⟩ :=
    (createCircle_returns_circle sampleCircleServices [1, 2, 3] [1, 0, 0] [0, 0, 1] 2 rfl).1
  have h0 := hends 0 (by decide)
  simp only [sampleCircleServices] at h0
  norm_num at h0
  exact ⟨c, hc, horder, hlen, hknots, h0.1, h0.2⟩

theorem sampleCount_bounds (len approxtol : ℚ) :
    5 ≤ sampleCount len approxtol ∧ sampleCount len approxtol ≤ 1000 := by
  unfold sampleCount
  constructor
  · exact le_max_left _ _
  · exact max_le (by norm_num) (min_le_left _ _)

theorem sampleCount_of_large_quotient : sampleCount 3000000000 1 = 5 := by
  have h : (3000000000 : ℚ).floor = 3000000000 := by decide
  simp [sampleCount, truncate, h]

theorem sampleCurve_approximator (A : ApproxServices)
    (other : List ℚ → List ℚ → Int → ℚ → Int → Int → List Point → List Point → Int →
      Option SplineCurve × ℚ × ℚ)
    (crv : SplineCurve) (tint : ℚ) :
    ∀ (rounds : Nat) (tpar : ℚ) (samples : Samples),
      sampleCurve { A with getApproxCurve := other } crv tint rounds tpar samples =
        sampleCurve A crv tint rounds tpar samples := by
  intro rounds
  induction rounds with
  | zero => intro tpar samples; rfl
  | succ rounds ih =>
    intro tpar samples
    simp only [sampleCurve]
    exact ih _ _

theorem sampleCurves_approximator (A : ApproxServices)
    (other : List ℚ → List ℚ → Int → ℚ → Int → Int → List Point → List Point → Int →
      Option SplineCurve × ℚ × ℚ)
    (approxtol : ℚ) :
    ∀ (crvs : List SplineCurve) (first : Bool) (dim : Int) (samples : Samples),
      sampleCurves { A with getApproxCurve := other } approxtol crvs first dim samples =
        sampleCurves A approxtol crvs first dim samples := by
  intro crvs
  induction crvs with
  | nil => intro first dim samples; rfl
  | cons crv rest ih =>
    intro first dim samples
    simp only [sampleCurves, sampleCurve_approximator]
    exact ih _ _ _

/-- C12: `approxCurves` does not fail on a missed tolerance: for every input it
returns the clone of the curve the approximator produced (it returns nothing
only when the approximator gave no curve at all) and reports the achieved
`maxdist` through the output argument; a `maxdist` greater than `approxtol`
adds the message and nothing else, and whatever `maxdist` the approximator
achieves the curve returned is the same; the approximator is handed copies of
`start_pt` and `end_pt` whose second point, the tangent, is normalised, and
the caller's `start_pt` and `end_pt` are as they were. -/
theorem approxCurves_returns_approximation (A : ApproxServices) (crvs : List SplineCurve)
    (start_pt end_pt : List Point) (approxtol : ℚ) (max_iter : Int) :
    ((approxCurves A crvs start_pt end_pt approxtol max_iter).returned,
      (approxCurves A crvs start_pt end_pt approxtol max_iter).maxdist) =
      ((A.getApproxCurve
          (sampleCurves A approxtol crvs true (-1)
            { points := [], params := [], pt1 := [] }).2.points
          (sampleCurves A approxtol crvs true (-1)
            { points := [], params := [], pt1 := [] }).2.params
          (sampleCurves A approxtol crvs true (-1)
            { points := [], params := [], pt1 := [] }).1
          approxtol
          (4 + ((if 1 < start_pt.length then 1 else 0) + (if 1 < end_pt.length then 1 else 0)))
          4
          (if 1 < start_pt.length then start_pt.set 1 (A.normalize (start_pt.getD 1 []))
            else start_pt)
          (if 1 < end_pt.length then end_pt.set 1 (A.normalize (end_pt.getD 1 []))
            else end_pt)
          max_iter).1,
       (A.getApproxCurve
          (sampleCurves A approxtol crvs true (-1)
            { points := [], params := [], pt1 := [] }).2.points
          (sampleCurves A approxtol crvs true (-1)
            { points := [], params := [], pt1 := [] }).2.params
          (sampleCurves A approxtol crvs true (-1)
            { points := [], params := [], pt1 := [] }).1
          approxtol
          (4 + ((if 1 < start_pt.length then 1 else 0) + (if 1 < end_pt.length then 1 else 0)))
          4
          (if 1 < start_pt.length then start_pt.set 1 (A.normalize (start_pt.getD 1 []))
            else start_pt)
          (if 1 < end_pt.length then end_pt.set 1 (A.normalize (end_pt.getD 1 []))
            else end_pt)
          max_iter).2.1) ∧
    (approxCurves A crvs start_pt end_pt approxtol max_iter).messages =
      (if (approxCurves A crvs start_pt end_pt approxtol max_iter).maxdist > approxtol then
        ["Failed iterating towards curve pieces! User must decide if close enough."]
      else []) ∧
    (approxCurves A crvs start_pt end_pt approxtol max_iter).start_pt = start_pt ∧
    (approxCurves A crvs start_pt end_pt approxtol max_iter).end_pt = end_pt ∧
    (∀ achieved : ℚ,
      (approxCurves
          { A with
            getApproxCurve := fun points params dim tol order_in order_out first last iter =>
              ((A.getApproxCurve points params dim tol order_in order_out first last iter).1,
               achieved,
               (A.getApproxCurve points params dim tol order_in order_out first last
                 iter).2.2) }
          crvs start_pt end_pt approxtol max_iter).returned =
        (approxCurves A crvs start_pt end_pt approxtol max_iter).returned) := by
  refine ⟨?_, ?_, rfl, rfl, ?_⟩
  · simp only [approxCurves, normalizeTangent, countDerivatives, gt_iff_lt]
  · simp only [approxCurves]
  · intro achieved
    simp only [approxCurves, sampleCurves_approximator, normalizeTangent]

theorem approxCurves_example :
    (approxCurves sampleApproxServices [sampleAlpha] [[0, 0], [0, 4]] [[1, 1]] 1 10).returned =
      some sampleF ∧
    (approxCurves sampleApproxServices [sampleAlpha] [[0, 0], [0, 4]] [[1, 1]] 1 10).maxdist = 3 ∧
    (approxCurves sampleApproxServices [sampleAlpha] [[0, 0], [0, 4]] [[1, 1]] 1 10).messages =
      ["Failed iterating towards curve pieces! User must decide if close enough."] ∧
    (approxCurves sampleApproxServices [sampleAlpha] [[0, 0], [0, 4]] [[1, 1]] 1 10).start_pt =
      [[0, 0], [0, 4]] ∧
    normalizeTangent sampleApproxServices [[0, 0], [0, 4]] = [[0, 0], [0, 2]] := by
  refine ⟨rfl, rfl, ?_, rfl, ?_⟩
  · simp [approxCurves, sampleApproxServices]
  · simp [normalizeTangent, sampleApproxServices]
    norm_num

/-- C9: two well-formed inputs at which `multCurveWithFunction` does not set up
the interpolation that gives the product.  For `alpha` and `f` of order 1 the
order of the product is 1, line 99 divides by `order - 1 = 0`, and the one
parameter handed to the evaluation and to the interpolator is not a number.
For an `alpha` with an interior knot of full multiplicity the merged knot
vector has that knot `order` times and two of the eight parameters are the
same `1/2`, so the eight conditions are seven. -/
theorem multCurveWithFunction_conditions_degenerate :
    constantAlpha.dimension = 1 ∧ constantAlpha.order = 1 ∧ constantF.order = 1 ∧
    (∃ c, multCurveWithFunction sampleSplineServices constantAlpha constantF = Except.ok c ∧
      c.order = 1 ∧ c.numCoefs = 1) ∧
    productParameters constantAlpha constantF = [none] ∧
    jumpAlpha.dimension = 1 ∧
    (∃ c, multCurveWithFunction sampleSplineServices jumpAlpha kinkF = Except.ok c ∧
      c.order = 3 ∧ c.numCoefs = 8) ∧
    productKnots jumpAlpha kinkF =
      [0, 0, 0, 1 / 4, 1 / 4, 1 / 2, 1 / 2, 1 / 2, 1, 1, 1] ∧
    productParameters jumpAlpha kinkF =
      [some 0, some (1 / 8), some (1 / 4), some (3 / 8), some (1 / 2), some (1 / 2),
       some (3 / 4), some 1] := by
  have hk1 : productKnots constantAlpha constantF = [0, 1] := by
    simp [productKnots, constantAlpha, constantF, SplineCurve.create, SplineCurve.order,
      insertMultipleKnots, set_union]
  have hk2 : productKnots jumpAlpha kinkF =
      [0, 0, 0, 1 / 4, 1 / 4, 1 / 2, 1 / 2, 1 / 2, 1, 1, 1] := by
    norm_num [productKnots, jumpAlpha, kinkF, SplineCurve.create, SplineCurve.order,
      insertMultipleKnots, set_union]
  have ho1 : constantAlpha.order + constantF.order - 1 = 1 := rfl
  have ho2 : jumpAlpha.order + kinkF.order - 1 = 3 := rfl
  refine ⟨rfl, rfl, rfl, ?_, ?_, rfl, ?_, hk2, ?_⟩
  · refine ⟨_, multCurveWithFunction_eq_of_checks sampleSplineServices constantAlpha constantF
      rfl rfl rfl, ?_, ?_⟩
    · rfl
    · show ((productKnots constantAlpha constantF).length : Int)
        - (constantAlpha.order + constantF.order - 1) = 1
      rw [hk1]
      rfl
  · simp [productParameters, ho1, hk1, coefParameter, List.range, List.range.loop]
  · refine ⟨_, multCurveWithFunction_eq_of_checks sampleSplineServices jumpAlpha kinkF
      rfl rfl rfl, ?_, ?_⟩
    · rfl
    · show ((productKnots jumpAlpha kinkF).length : Int)
        - (jumpAlpha.order + kinkF.order - 1) = 8
      rw [hk2]
      rfl
  · simp [productParameters, ho2, hk2, coefParameter, List.range, List.range.loop]
    norm_num

/-- C10: a rational curve at which `offsetCurve` does not move the control
points.  The curve has the control points `(0,0)` with weight 1 and `(2,4)`
with weight `1/2`; the call with the offset `(1,-1)` shifts the non-rational
coefficients to `(1,-1)`, `(3,3)` and returns the homogeneous values of
`base_cv` as they were, which are not those of the shifted control points,
`1, -1, 1` and `3/2, 3/2, 1/2`. -/
theorem offsetCurve_leaves_homogeneous_values :
    sampleRational.rational = true ∧
    offsetCurve true sampleRational [1, -1] =
      Except.ok (sampleRational,
        { dim := 2
          rational := true
          basis := { num_coefs := 2, order := 2, knots := [0, 0, 1, 1] }
          coefs := [1, -1, 3, 3]
          rcoefs := [0, 0, 1, 1, 2, 1 / 2] }) ∧
    ([0, 0, 1, 1, 2, 1 / 2] : List ℚ) ≠ [1, -1, 1, 3 / 2, 3 / 2, 1 / 2] := by
  refine ⟨rfl, ?_, by simp⟩
  simp [offsetCurve, offsetLoop, addOffset, sampleRational, SplineCurve.dimension]
  norm_num

end GoTools
